import Mathlib

/-!
# A shallow embedding of the `nes-emulator` 6502 core, bus, PPU and ROM loader

Machine integers are modelled as `Nat` with explicit reduction `% 256`
(`u8`) and `% 65536` (`u16`) at the points where the Rust source wraps
(`wrapping_add`, `wrapping_sub`, release-mode `+` on a machine integer,
shifts on `u8`).  Memory as seen by the CPU through the `Memory` trait
(`src/mem/memory.rs`) is a total map from 16-bit addresses to bytes; the
`% 65536` on the address and the `% 256` on the value carried by
`Mem.read` embed the `u16`/`u8` types of the trait.  Fallible code
(Rust `panic!` / `Result`) is embedded with `Option` / `Except`.
-/

namespace Nes

/-- Reduction to `u8` range. -/
def wrap8 (n : Nat) : Nat := n % 256

/-- Reduction to `u16` range. -/
def wrap16 (n : Nat) : Nat := n % 65536

/-- `utils::set_bit`: set or clear the bits of `mask` in `byte`. -/
def set_bit (byte mask : Nat) (value : Bool) : Nat :=
  if value then byte ||| mask else byte &&& (mask ^^^ 255)

/-! ## Status flags (`cpu::StatusFlag`) -/

def flagCarry : Nat := 0x01
def flagZero : Nat := 0x02
def flagInterruptDisable : Nat := 0x04
def flagDecimal : Nat := 0x08
def flagBreak : Nat := 0x10
def flagOverflow : Nat := 0x40
def flagNegative : Nat := 0x80

/-! ## Memory (`mem::Memory` trait) -/

/-- CPU-visible memory: a total map from `u16` addresses to `u8` bytes.
The CPU core accesses storage only through the `Memory` trait, which the
`Bus` implements; the trait's byte/address types are embedded by the
wrapping in `Mem.read`/`Mem.write`. -/
def Mem : Type := Nat → Nat

/-- `mem_read_u8` against the trait: a byte (`% 256`) at a 16-bit address. -/
def Mem.read (m : Mem) (addr : Nat) : Nat := wrap8 (m (wrap16 addr))

/-- `mem_write_u8` against the trait. -/
def Mem.write (m : Mem) (addr v : Nat) : Mem :=
  fun a => if a = wrap16 addr then wrap8 v else m a

/-- `Memory::mem_read_u16` (little endian; the `addr + 1` is `u16`
arithmetic, hence the wrap inside `Mem.read`). -/
def Mem.read16 (m : Mem) (addr : Nat) : Nat :=
  let lo := m.read addr
  let hi := m.read (addr + 1)
  (hi <<< 8) ||| lo

/-- `Memory::mem_write_u16` (little endian). -/
def Mem.write16 (m : Mem) (addr v : Nat) : Mem :=
  let lo := wrap8 v
  let hi := v >>> 8
  (m.write addr lo).write (addr + 1) hi

/-! ## CPU state (`cpu::CPU`) -/

/-- The register file of `cpu::CPU` together with the memory it reaches
through its bus. -/
structure CPUState where
  pc : Nat
  status : Nat
  stack : Nat
  reg_a : Nat
  reg_x : Nat
  reg_y : Nat
  mem : Mem

/-- The representation invariant carried by the Rust types `u8`/`u16`. -/
def CPUState.Wf (s : CPUState) : Prop :=
  s.pc < 65536 ∧ s.status < 256 ∧ s.stack < 256 ∧
  s.reg_a < 256 ∧ s.reg_x < 256 ∧ s.reg_y < 256

/-- `INIT_STACK_POINTER` (src/cpu/mod.rs line 11). -/
def INIT_STACK_POINTER : Nat := 0xFF

/-- `PC_START_ADDRESS`. -/
def PC_START_ADDRESS : Nat := 0xFFFC

/-- `CPU::reset`. -/
def CPUState.reset (s : CPUState) : CPUState :=
  { s with
    reg_a := 0
    reg_x := 0
    reg_y := 0
    status := 0b00100100
    stack := INIT_STACK_POINTER
    pc := s.mem.read16 PC_START_ADDRESS }

/-- `CPU::mem_read_pc_u8`: read the byte at PC, then `self.pc += 1`
(`u16` arithmetic). -/
def CPUState.readPcU8 (s : CPUState) : Nat × CPUState :=
  (s.mem.read s.pc, { s with pc := wrap16 (s.pc + 1) })

/-- `CPU::mem_read_pc_u16`: read the 16-bit value at PC, then
`self.pc += 2`. -/
def CPUState.readPcU16 (s : CPUState) : Nat × CPUState :=
  (s.mem.read16 s.pc, { s with pc := wrap16 (s.pc + 2) })

/-- `CPU::get_flag`. -/
def getFlag (status flag : Nat) : Bool := status &&& flag != 0

/-- `CPU::set_flag`: clear the flag's bit, then set it if `value`. -/
def setFlag (status flag : Nat) (value : Bool) : Nat :=
  let cleared := status &&& (flag ^^^ 255)
  if value then cleared ||| flag else cleared

/-- `CPU::update_zero_and_negative_flags`. -/
def updateZN (status result : Nat) : Nat :=
  set_bit (set_bit status flagZero (result == 0)) flagNegative
    (result &&& 0b10000000 != 0)

/-- `CPU::get_stack_address`: `0x0100 | stack`. -/
def CPUState.stackAddr (s : CPUState) : Nat := 0x0100 ||| s.stack

/-- `CPU::stack_push_value_u8`: write at `0x0100 | SP`, then
`SP.wrapping_sub(1)`. -/
def CPUState.pushU8 (s : CPUState) (v : Nat) : CPUState :=
  { s with
    mem := s.mem.write s.stackAddr v
    stack := wrap8 (s.stack + 255) }

/-- `CPU::stack_pull_value_u8`: `SP.wrapping_add(1)`, then read at
`0x0100 | SP`. -/
def CPUState.pullU8 (s : CPUState) : Nat × CPUState :=
  let s1 : CPUState := { s with stack := wrap8 (s.stack + 1) }
  (s1.mem.read s1.stackAddr, s1)

/-- `CPU::stack_push_value_u16`: push the high byte, then the low byte
(`u16::to_le_bytes`). -/
def CPUState.pushU16 (s : CPUState) (v : Nat) : CPUState :=
  let lo := wrap8 v
  let hi := wrap8 (v >>> 8)
  (s.pushU8 hi).pushU8 lo

/-- `CPU::stack_pull_value_u16`: pull the low byte, then the high byte. -/
def CPUState.pullU16 (s : CPUState) : Nat × CPUState :=
  let (lo, s1) := s.pullU8
  let (hi, s2) := s1.pullU8
  ((hi <<< 8) ||| lo, s2)

/-! ## Addressing modes (`cpu::opcode::opcode_table::AddressingMode`) -/

inductive AddressingMode where
  | Immediate
  | ZeroPage
  | ZeroPage_X
  | ZeroPage_Y
  | Absolute
  | Absolute_X
  | Absolute_Y
  | Indirect
  | Indirect_X
  | Indirect_Y
  | Accumulator
  | Relative
  | NoneAddressing
deriving DecidableEq, Repr

/-- `CPU::get_address`, the address resolver.  The `Accumulator` arm and
the catch-all arm of the Rust `match` are `panic!`s, embedded as `none`.
In the `Immediate` arm the source does `self.pc += 1; self.pc - 1`; the
`- 1` is `u16` arithmetic, embedded as `+ 65535` mod `2^16`. -/
def getAddress (mode : AddressingMode) (s : CPUState) :
    Option (Nat × CPUState) :=
  match mode with
  | .Immediate =>
    let s1 : CPUState := { s with pc := wrap16 (s.pc + 1) }
    some (wrap16 (s1.pc + 65535), s1)
  | .ZeroPage =>
    let (b, s1) := s.readPcU8
    some (b, s1)
  | .ZeroPage_X =>
    let (b, s1) := s.readPcU8
    some (wrap8 (b + s1.reg_x), s1)
  | .ZeroPage_Y =>
    let (b, s1) := s.readPcU8
    some (wrap8 (b + s1.reg_y), s1)
  | .Absolute =>
    let (a, s1) := s.readPcU16
    some (a, s1)
  | .Absolute_X =>
    let (a, s1) := s.readPcU16
    some (wrap16 (a + s1.reg_x), s1)
  | .Absolute_Y =>
    let (a, s1) := s.readPcU16
    some (wrap16 (a + s1.reg_y), s1)
  | .Indirect =>
    let (ptr, s1) := s.readPcU16
    -- page boundary bug of the original 6502: the carry of `ptr + 1`
    -- never reaches the high byte of the pointer
    let lo := s1.mem.read ptr
    let hi := s1.mem.read ((ptr &&& 0xFF00) ||| wrap8 (wrap8 ptr + 1))
    some ((hi <<< 8) ||| lo, s1)
  | .Indirect_X =>
    let (b, s1) := s.readPcU8
    let p := wrap8 (b + s1.reg_x)
    let lo := s1.mem.read p
    let hi := s1.mem.read (wrap8 (p + 1))
    some ((hi <<< 8) ||| lo, s1)
  | .Indirect_Y =>
    let (b, s1) := s.readPcU8
    let lo := s1.mem.read b
    let hi := s1.mem.read (wrap8 (b + 1))
    let base := (hi <<< 8) ||| lo
    some (wrap16 (base + s1.reg_y), s1)
  | .Accumulator => none
  | .Relative => none
  | .NoneAddressing => none

/-- `CPU::get_address_and_value`. -/
def getAddressAndValue (mode : AddressingMode) (s : CPUState) :
    Option (Nat × Nat × CPUState) :=
  match getAddress mode s with
  | none => none
  | some (addr, s1) => some (addr, s1.mem.read addr, s1)

/-- `CPU::branch`: consume the relative offset, and add it
sign-extended to PC when the condition holds. -/
def CPUState.branch (s : CPUState) (condition : Bool) : CPUState :=
  let (offset, s1) := s.readPcU8
  if condition then
    -- `offset as i8 as u16`: sign extension of the byte
    let ext := if 128 ≤ offset then 0xFF00 ||| offset else offset
    { s1 with pc := wrap16 (s1.pc + ext) }
  else s1

/-- `u8::wrapping_sub` for byte values. -/
def wsub8 (a b : Nat) : Nat := wrap8 (a + 256 - b)

/-! ## Instruction handlers (`cpu::opcode::*`)

Each handler has the Rust signature `fn(&mut CPU, AddressingMode)`;
a `panic!` reached through `get_address` is embedded as `none`. -/

/-- `load_store::lda`. -/
def lda (mode : AddressingMode) (s : CPUState) : Option CPUState :=
  match getAddress mode s with
  | none => none
  | some (addr, s1) =>
    let v := s1.mem.read addr
    some { s1 with reg_a := v, status := updateZN s1.status v }

/-- `load_store::ldx`. -/
def ldx (mode : AddressingMode) (s : CPUState) : Option CPUState :=
  match getAddress mode s with
  | none => none
  | some (addr, s1) =>
    let v := s1.mem.read addr
    some { s1 with reg_x := v, status := updateZN s1.status v }

/-- `load_store::ldy`. -/
def ldy (mode : AddressingMode) (s : CPUState) : Option CPUState :=
  match getAddress mode s with
  | none => none
  | some (addr, s1) =>
    let v := s1.mem.read addr
    some { s1 with reg_y := v, status := updateZN s1.status v }

/-- `load_store::sta`. -/
def sta (mode : AddressingMode) (s : CPUState) : Option CPUState :=
  match getAddress mode s with
  | none => none
  | some (addr, s1) => some { s1 with mem := s1.mem.write addr s1.reg_a }

/-- `load_store::stx`. -/
def stx (mode : AddressingMode) (s : CPUState) : Option CPUState :=
  match getAddress mode s with
  | none => none
  | some (addr, s1) => some { s1 with mem := s1.mem.write addr s1.reg_x }

/-- `load_store::sty`. -/
def sty (mode : AddressingMode) (s : CPUState) : Option CPUState :=
  match getAddress mode s with
  | none => none
  | some (addr, s1) => some { s1 with mem := s1.mem.write addr s1.reg_y }

/-- `register_transfers::tax`. -/
def tax (_mode : AddressingMode) (s : CPUState) : Option CPUState :=
  some { s with reg_x := s.reg_a, status := updateZN s.status s.reg_a }

/-- `register_transfers::tay`. -/
def tay (_mode : AddressingMode) (s : CPUState) : Option CPUState :=
  some { s with reg_y := s.reg_a, status := updateZN s.status s.reg_a }

/-- `register_transfers::tsx`. -/
def tsx (_mode : AddressingMode) (s : CPUState) : Option CPUState :=
  some { s with reg_x := s.stack, status := updateZN s.status s.stack }

/-- `register_transfers::txa`. -/
def txa (_mode : AddressingMode) (s : CPUState) : Option CPUState :=
  some { s with reg_a := s.reg_x, status := updateZN s.status s.reg_x }

/-- `register_transfers::txs` (no flag update). -/
def txs (_mode : AddressingMode) (s : CPUState) : Option CPUState :=
  some { s with stack := s.reg_x }

/-- `register_transfers::tya`. -/
def tya (_mode : AddressingMode) (s : CPUState) : Option CPUState :=
  some { s with reg_a := s.reg_y, status := updateZN s.status s.reg_y }

/-- `arithmetic::cpu_addition_with_carry`: 9-bit add with carry-in,
setting C, V, Z, N and writing the result to A. -/
def cpuAdditionWithCarry (s : CPUState) (value : Nat) : CPUState :=
  let carry_in := if getFlag s.status flagCarry then 1 else 0
  let temp_result := wrap8 (s.reg_a + value)
  let temp_carry := decide (256 ≤ s.reg_a + value)
  let result := wrap8 (temp_result + carry_in)
  let carry_from_carry := decide (256 ≤ temp_result + carry_in)
  let carry_flag := temp_carry || carry_from_carry
  let overflow_flag := (value ^^^ result) &&& (s.reg_a ^^^ result) &&& 0b10000000 != 0
  let st := s.status &&& ((flagCarry ||| flagOverflow) ^^^ 255)
  let st := if carry_flag then st ||| flagCarry else st
  let st := if overflow_flag then st ||| flagOverflow else st
  { s with reg_a := result, status := updateZN st result }

/-- `arithmetic::adc`. -/
def adc (mode : AddressingMode) (s : CPUState) : Option CPUState :=
  match getAddressAndValue mode s with
  | none => none
  | some (_, v, s1) => some (cpuAdditionWithCarry s1 v)

/-- `arithmetic::sbc`: ADC of the one's complement of the operand. -/
def sbc (mode : AddressingMode) (s : CPUState) : Option CPUState :=
  match getAddressAndValue mode s with
  | none => none
  | some (_, v, s1) => some (cpuAdditionWithCarry s1 (v ^^^ 0xFF))

/-- `arithmetic::cmp`. -/
def cmp (mode : AddressingMode) (s : CPUState) : Option CPUState :=
  match getAddressAndValue mode s with
  | none => none
  | some (_, v, s1) =>
    let st := setFlag s1.status flagCarry (decide (v ≤ s1.reg_a))
    let st := setFlag st flagZero (s1.reg_a == v)
    let st := setFlag st flagNegative (wsub8 s1.reg_a v &&& 0b10000000 != 0)
    some { s1 with status := st }

/-- `arithmetic::cpx`. -/
def cpx (mode : AddressingMode) (s : CPUState) : Option CPUState :=
  match getAddressAndValue mode s with
  | none => none
  | some (_, v, s1) =>
    let st := setFlag s1.status flagCarry (decide (v ≤ s1.reg_x))
    let st := setFlag st flagZero (s1.reg_x == v)
    let st := setFlag st flagNegative (wsub8 s1.reg_x v &&& 0b10000000 != 0)
    some { s1 with status := st }

/-- `arithmetic::cpy`. -/
def cpy (mode : AddressingMode) (s : CPUState) : Option CPUState :=
  match getAddressAndValue mode s with
  | none => none
  | some (_, v, s1) =>
    let st := setFlag s1.status flagCarry (decide (v ≤ s1.reg_y))
    let st := setFlag st flagZero (s1.reg_y == v)
    let st := setFlag st flagNegative (wsub8 s1.reg_y v &&& 0b10000000 != 0)
    some { s1 with status := st }

/-- `shifts::resolve_value_and_address`: accumulator mode yields A and no
address, otherwise the resolved address and the byte there. -/
def resolveValueAndAddress (mode : AddressingMode) (s : CPUState) :
    Option (Nat × Option Nat × CPUState) :=
  if mode = .Accumulator then some (s.reg_a, none, s)
  else
    match getAddress mode s with
    | none => none
    | some (addr, s1) => some (s1.mem.read addr, some addr, s1)

/-- Write a shift result back to memory or to A (the `match addr` in the
bodies of `shifts.rs`). -/
def writeShiftResult (s : CPUState) (addr : Option Nat) (result : Nat) :
    CPUState :=
  match addr with
  | some a => { s with mem := s.mem.write a result }
  | none => { s with reg_a := result }

/-- `shifts::asl` (`value << 1` truncates on `u8`). -/
def asl (mode : AddressingMode) (s : CPUState) : Option CPUState :=
  match resolveValueAndAddress mode s with
  | none => none
  | some (v, addr, s1) =>
    let result := wrap8 (v <<< 1)
    let s2 := writeShiftResult s1 addr result
    some { s2 with
      status := updateZN (setFlag s2.status flagCarry (v &&& 0b10000000 != 0))
        result }

/-- `shifts::lsr`. -/
def lsr (mode : AddressingMode) (s : CPUState) : Option CPUState :=
  match resolveValueAndAddress mode s with
  | none => none
  | some (v, addr, s1) =>
    let result := v >>> 1
    let s2 := writeShiftResult s1 addr result
    some { s2 with
      status := updateZN (setFlag s2.status flagCarry (v &&& 0b00000001 != 0))
        result }

/-- `shifts::rol`. -/
def rol (mode : AddressingMode) (s : CPUState) : Option CPUState :=
  match resolveValueAndAddress mode s with
  | none => none
  | some (v, addr, s1) =>
    let r0 := wrap8 (v <<< 1)
    let result := if getFlag s1.status flagCarry then r0 + 1 else r0
    let s2 := writeShiftResult s1 addr result
    some { s2 with
      status := updateZN (setFlag s2.status flagCarry (v &&& 0b10000000 != 0))
        result }

/-- `shifts::ror`. -/
def ror (mode : AddressingMode) (s : CPUState) : Option CPUState :=
  match resolveValueAndAddress mode s with
  | none => none
  | some (v, addr, s1) =>
    let r0 := v >>> 1
    let result := if getFlag s1.status flagCarry then r0 + 0b10000000 else r0
    let s2 := writeShiftResult s1 addr result
    some { s2 with
      status := updateZN (setFlag s2.status flagCarry (v &&& 0b00000001 != 0))
        result }

/-- `logical::and` (primed: `and` would shadow the core boolean). -/
def and' (mode : AddressingMode) (s : CPUState) : Option CPUState :=
  match getAddress mode s with
  | none => none
  | some (addr, s1) =>
    let v := s1.mem.read addr
    let a := s1.reg_a &&& v
    some { s1 with reg_a := a, status := updateZN s1.status a }

/-- `logical::eor`. -/
def eor (mode : AddressingMode) (s : CPUState) : Option CPUState :=
  match getAddress mode s with
  | none => none
  | some (addr, s1) =>
    let v := s1.mem.read addr
    let a := s1.reg_a ^^^ v
    some { s1 with reg_a := a, status := updateZN s1.status a }

/-- `logical::ora`. -/
def ora (mode : AddressingMode) (s : CPUState) : Option CPUState :=
  match getAddress mode s with
  | none => none
  | some (addr, s1) =>
    let v := s1.mem.read addr
    let a := s1.reg_a ||| v
    some { s1 with reg_a := a, status := updateZN s1.status a }

/-- `logical::bit`. -/
def bit (mode : AddressingMode) (s : CPUState) : Option CPUState :=
  match getAddress mode s with
  | none => none
  | some (addr, s1) =>
    let v := s1.mem.read addr
    let result := s1.reg_a &&& v
    let st := s1.status &&& ((flagZero ||| flagOverflow ||| flagNegative) ^^^ 255)
    let st := if result == 0 then st ||| flagZero else st
    let st := if v &&& 0b01000000 != 0 then st ||| flagOverflow else st
    let st := if v &&& 0b10000000 != 0 then st ||| flagNegative else st
    some { s1 with status := st }

/-- `increment_decrements::inc`. -/
def inc (mode : AddressingMode) (s : CPUState) : Option CPUState :=
  match getAddress mode s with
  | none => none
  | some (addr, s1) =>
    let v := wrap8 (s1.mem.read addr + 1)
    some { s1 with mem := s1.mem.write addr v, status := updateZN s1.status v }

/-- `increment_decrements::inx`. -/
def inx (_mode : AddressingMode) (s : CPUState) : Option CPUState :=
  let v := wrap8 (s.reg_x + 1)
  some { s with reg_x := v, status := updateZN s.status v }

/-- `increment_decrements::iny`. -/
def iny (_mode : AddressingMode) (s : CPUState) : Option CPUState :=
  let v := wrap8 (s.reg_y + 1)
  some { s with reg_y := v, status := updateZN s.status v }

/-- `increment_decrements::dec`. -/
def dec (mode : AddressingMode) (s : CPUState) : Option CPUState :=
  match getAddress mode s with
  | none => none
  | some (addr, s1) =>
    let v := wsub8 (s1.mem.read addr) 1
    some { s1 with mem := s1.mem.write addr v, status := updateZN s1.status v }

/-- `increment_decrements::dex`. -/
def dex (_mode : AddressingMode) (s : CPUState) : Option CPUState :=
  let v := wsub8 s.reg_x 1
  some { s with reg_x := v, status := updateZN s.status v }

/-- `increment_decrements::dey`. -/
def dey (_mode : AddressingMode) (s : CPUState) : Option CPUState :=
  let v := wsub8 s.reg_y 1
  some { s with reg_y := v, status := updateZN s.status v }

/-- `branches::bcs`. -/
def bcs (_mode : AddressingMode) (s : CPUState) : Option CPUState :=
  some (s.branch (getFlag s.status flagCarry))

/-- `branches::bcc`. -/
def bcc (_mode : AddressingMode) (s : CPUState) : Option CPUState :=
  some (s.branch (!getFlag s.status flagCarry))

/-- `branches::beq`. -/
def beq (_mode : AddressingMode) (s : CPUState) : Option CPUState :=
  some (s.branch (getFlag s.status flagZero))

/-- `branches::bne`. -/
def bne (_mode : AddressingMode) (s : CPUState) : Option CPUState :=
  some (s.branch (!getFlag s.status flagZero))

/-- `branches::bmi`. -/
def bmi (_mode : AddressingMode) (s : CPUState) : Option CPUState :=
  some (s.branch (getFlag s.status flagNegative))

/-- `branches::bpl`. -/
def bpl (_mode : AddressingMode) (s : CPUState) : Option CPUState :=
  some (s.branch (!getFlag s.status flagNegative))

/-- `branches::bvs`. -/
def bvs (_mode : AddressingMode) (s : CPUState) : Option CPUState :=
  some (s.branch (getFlag s.status flagOverflow))

/-- `branches::bvc`. -/
def bvc (_mode : AddressingMode) (s : CPUState) : Option CPUState :=
  some (s.branch (!getFlag s.status flagOverflow))

/-- `jumps::jmp`. -/
def jmp (mode : AddressingMode) (s : CPUState) : Option CPUState :=
  match getAddress mode s with
  | none => none
  | some (addr, s1) => some { s1 with pc := addr }

/-- `jumps::jsr`: push `PC - 1` (the `- 1` wraps on `u16`), jump. -/
def jsr (mode : AddressingMode) (s : CPUState) : Option CPUState :=
  match getAddress mode s with
  | none => none
  | some (addr, s1) =>
    let s2 := s1.pushU16 (wrap16 (s1.pc + 65535))
    some { s2 with pc := addr }

/-- `jumps::rts`: pull the return address and add 1. -/
def rts (_mode : AddressingMode) (s : CPUState) : Option CPUState :=
  let (addr, s1) := s.pullU16
  some { s1 with pc := wrap16 (addr + 1) }

/-- `stack_operations::pha`. -/
def pha (_mode : AddressingMode) (s : CPUState) : Option CPUState :=
  some { s with
    mem := s.mem.write s.stackAddr s.reg_a
    stack := wrap8 (s.stack + 255) }

/-- `stack_operations::php`. -/
def php (_mode : AddressingMode) (s : CPUState) : Option CPUState :=
  some { s with
    mem := s.mem.write s.stackAddr s.status
    stack := wrap8 (s.stack + 255) }

/-- `stack_operations::pla`. -/
def pla (_mode : AddressingMode) (s : CPUState) : Option CPUState :=
  let (v, s1) := s.pullU8
  some { s1 with reg_a := v, status := updateZN s1.status v }

/-- `stack_operations::plp`. -/
def plp (_mode : AddressingMode) (s : CPUState) : Option CPUState :=
  let (v, s1) := s.pullU8
  some { s1 with status := v }

/-- `status_flag_changes::clc`. -/
def clc (_mode : AddressingMode) (s : CPUState) : Option CPUState :=
  some { s with status := setFlag s.status flagCarry false }

/-- `status_flag_changes::cld`. -/
def cld (_mode : AddressingMode) (s : CPUState) : Option CPUState :=
  some { s with status := setFlag s.status flagDecimal false }

/-- `status_flag_changes::cli`. -/
def cli (_mode : AddressingMode) (s : CPUState) : Option CPUState :=
  some { s with status := setFlag s.status flagInterruptDisable false }

/-- `status_flag_changes::clv`. -/
def clv (_mode : AddressingMode) (s : CPUState) : Option CPUState :=
  some { s with status := setFlag s.status flagOverflow false }

/-- `status_flag_changes::sec`. -/
def sec (_mode : AddressingMode) (s : CPUState) : Option CPUState :=
  some { s with status := setFlag s.status flagCarry true }

/-- `status_flag_changes::sed`. -/
def sed (_mode : AddressingMode) (s : CPUState) : Option CPUState :=
  some { s with status := setFlag s.status flagDecimal true }

/-- `status_flag_changes::sei`. -/
def sei (_mode : AddressingMode) (s : CPUState) : Option CPUState :=
  some { s with status := setFlag s.status flagInterruptDisable true }

/-- `system_functions::brk` (halt sentinel: set the Break flag). -/
def brk (_mode : AddressingMode) (s : CPUState) : Option CPUState :=
  some { s with status := set_bit s.status flagBreak true }

/-- `system_functions::nop`. -/
def nop (_mode : AddressingMode) (s : CPUState) : Option CPUState :=
  some s

/-- `system_functions::rti`: pull P (keeping bits 4 and 5 of the current
P, ignoring those bits of the pulled value), then pull PC. -/
def rti (_mode : AddressingMode) (s : CPUState) : Option CPUState :=
  let (v, s1) := s.pullU8
  let st := (s1.status &&& 0b00110000) ||| (v &&& 0b11001111)
  let (addr, s2) := CPUState.pullU16 { s1 with status := st }
  some { s2 with pc := addr }

/-- `combined_ops::alr`: AND, then LSR on A. -/
def alr (mode : AddressingMode) (s : CPUState) : Option CPUState :=
  match and' mode s with
  | none => none
  | some s1 => lsr .Accumulator s1

/-- `combined_ops::anc`: AND, then copy the Negative flag into Carry. -/
def anc (mode : AddressingMode) (s : CPUState) : Option CPUState :=
  match and' mode s with
  | none => none
  | some s1 =>
    some { s1 with
      status := setFlag s1.status flagCarry (getFlag s1.status flagNegative) }

/-- `combined_ops::arr`: AND, ROR on A, special C/V from bits 5 and 6 of
the AND intermediate. -/
def arr (mode : AddressingMode) (s : CPUState) : Option CPUState :=
  match and' mode s with
  | none => none
  | some s1 =>
    let and_result := s1.reg_a
    match ror .Accumulator s1 with
    | none => none
    | some s2 =>
      let b5 := and_result &&& (1 <<< 5) != 0
      let b6 := and_result &&& (1 <<< 6) != 0
      let st :=
        match b5, b6 with
        | true, true => setFlag (setFlag s2.status flagCarry true) flagOverflow false
        | false, false => setFlag (setFlag s2.status flagCarry false) flagOverflow false
        | true, false => setFlag (setFlag s2.status flagCarry false) flagOverflow true
        | false, true => setFlag (setFlag s2.status flagCarry true) flagOverflow false
      some { s2 with status := st }

/-- `combined_ops::axs`: `X ← (A AND X) − M` with the source's
(inverted) carry `(A AND X) < M`, then Z/N from the new X. -/
def axs (mode : AddressingMode) (s : CPUState) : Option CPUState :=
  match getAddress mode s with
  | none => none
  | some (addr, s1) =>
    let and_result := s1.reg_a &&& s1.reg_x
    let operand := s1.mem.read addr
    let value := wsub8 and_result operand
    some { s1 with
      reg_x := value
      status := updateZN
        (setFlag s1.status flagCarry (decide (and_result < operand))) value }

/-- `combined_ops::lax`. -/
def lax (mode : AddressingMode) (s : CPUState) : Option CPUState :=
  match getAddress mode s with
  | none => none
  | some (addr, s1) =>
    let v := s1.mem.read addr
    some { s1 with reg_a := v, reg_x := v, status := updateZN s1.status v }

/-- `combined_ops::sax`. -/
def sax (mode : AddressingMode) (s : CPUState) : Option CPUState :=
  match getAddress mode s with
  | none => none
  | some (addr, s1) =>
    some { s1 with mem := s1.mem.write addr (s1.reg_a &&& s1.reg_x) }

/-- `rmw::dcp`: decrement memory, then compare A against the decremented
value (flags as CMP, not from the stored result). -/
def dcp (mode : AddressingMode) (s : CPUState) : Option CPUState :=
  match getAddress mode s with
  | none => none
  | some (addr, s1) =>
    let value := wsub8 (s1.mem.read addr) 1
    let st := setFlag s1.status flagCarry (decide (value ≤ s1.reg_a))
    let st := setFlag st flagZero (s1.reg_a == value)
    let st := setFlag st flagNegative (wsub8 s1.reg_a value &&& 0b10000000 != 0)
    some { s1 with mem := s1.mem.write addr value, status := st }

/-- `rmw::isc`: increment memory, then SBC the new value. -/
def isc (mode : AddressingMode) (s : CPUState) : Option CPUState :=
  match getAddress mode s with
  | none => none
  | some (addr, s1) =>
    let value := wrap8 (s1.mem.read addr + 1)
    let s2 : CPUState := { s1 with mem := s1.mem.write addr value }
    some (cpuAdditionWithCarry s2 (value ^^^ 0xFF))

/-- `rmw::rla`: ROL memory, then AND into A. -/
def rla (mode : AddressingMode) (s : CPUState) : Option CPUState :=
  match getAddress mode s with
  | none => none
  | some (addr, s1) =>
    let value := s1.mem.read addr
    let r0 := wrap8 (value <<< 1)
    let result := if getFlag s1.status flagCarry then r0 + 1 else r0
    let a := s1.reg_a &&& result
    some { s1 with
      mem := s1.mem.write addr result
      reg_a := a
      status := updateZN
        (setFlag s1.status flagCarry (value &&& 0b10000000 != 0)) a }

/-- `rmw::rra`: ROR memory, set Carry from bit 0 of the old value, then
ADC the rotated value (using the just-set Carry). -/
def rra (mode : AddressingMode) (s : CPUState) : Option CPUState :=
  match getAddress mode s with
  | none => none
  | some (addr, s1) =>
    let value := s1.mem.read addr
    let r0 := value >>> 1
    let result := if getFlag s1.status flagCarry then r0 + 0b10000000 else r0
    let s2 : CPUState := { s1 with
      mem := s1.mem.write addr result
      status := setFlag s1.status flagCarry (value &&& 0b00000001 != 0) }
    some (cpuAdditionWithCarry s2 result)

/-- `rmw::slo`: ASL memory, then ORA into A. -/
def slo (mode : AddressingMode) (s : CPUState) : Option CPUState :=
  match getAddress mode s with
  | none => none
  | some (addr, s1) =>
    let value := s1.mem.read addr
    let result := wrap8 (value <<< 1)
    let a := s1.reg_a ||| result
    some { s1 with
      mem := s1.mem.write addr result
      reg_a := a
      status := updateZN
        (setFlag s1.status flagCarry (value &&& 0b10000000 != 0)) a }

/-- `rmw::sre`: LSR memory, then EOR into A. -/
def sre (mode : AddressingMode) (s : CPUState) : Option CPUState :=
  match getAddress mode s with
  | none => none
  | some (addr, s1) =>
    let value := s1.mem.read addr
    let result := value >>> 1
    let a := s1.reg_a ^^^ result
    some { s1 with
      mem := s1.mem.write addr result
      reg_a := a
      status := updateZN
        (setFlag s1.status flagCarry (value &&& 0b00000001 != 0)) a }

/-! ## The opcode table (`cpu::opcode::opcode_table::OPCODE_TABLE`) and
the fetch-decode-execute step of `CPU::run_with_callback`. -/

/-- One populated entry of `OPCODE_TABLE` (`cpu::opcode::OP`). -/
structure OpEntry where
  code : Nat
  name : String
  op : AddressingMode → CPUState → Option CPUState
  mode : AddressingMode
  bytes : Nat
  cycles : Nat

set_option maxHeartbeats 3200000 in
/-- `OPCODE_TABLE`: the 236 populated entries, indexed by opcode byte;
`none` embeds an unpopulated slot (a fatal `UnknownOpcode`). -/
def decode (c : Nat) : Option OpEntry :=
  match c with
| 0xA9 => some ⟨0xA9, "LDA", lda, .Immediate, 2, 2⟩
  | 0xA5 => some ⟨0xA5, "LDA", lda, .ZeroPage, 2, 3⟩
  | 0xB5 => some ⟨0xB5, "LDA", lda, .ZeroPage_X, 2, 4⟩
  | 0xAD => some ⟨0xAD, "LDA", lda, .Absolute, 3, 4⟩
  | 0xBD => some ⟨0xBD, "LDA", lda, .Absolute_X, 3, 4⟩
  | 0xB9 => some ⟨0xB9, "LDA", lda, .Absolute_Y, 3, 4⟩
  | 0xA1 => some ⟨0xA1, "LDA", lda, .Indirect_X, 2, 6⟩
  | 0xB1 => some ⟨0xB1, "LDA", lda, .Indirect_Y, 2, 5⟩
  | 0xA2 => some ⟨0xA2, "LDX", ldx, .Immediate, 2, 2⟩
  | 0xA6 => some ⟨0xA6, "LDX", ldx, .ZeroPage, 2, 3⟩
  | 0xB6 => some ⟨0xB6, "LDX", ldx, .ZeroPage_Y, 2, 4⟩
  | 0xAE => some ⟨0xAE, "LDX", ldx, .Absolute, 3, 4⟩
  | 0xBE => some ⟨0xBE, "LDX", ldx, .Absolute_Y, 3, 4⟩
  | 0xA0 => some ⟨0xA0, "LDY", ldy, .Immediate, 2, 2⟩
  | 0xA4 => some ⟨0xA4, "LDY", ldy, .ZeroPage, 2, 3⟩
  | 0xB4 => some ⟨0xB4, "LDY", ldy, .ZeroPage_X, 2, 4⟩
  | 0xAC => some ⟨0xAC, "LDY", ldy, .Absolute, 3, 4⟩
  | 0xBC => some ⟨0xBC, "LDY", ldy, .Absolute_X, 3, 4⟩
  | 0x85 => some ⟨0x85, "STA", sta, .ZeroPage, 2, 3⟩
  | 0x95 => some ⟨0x95, "STA", sta, .ZeroPage_X, 2, 4⟩
  | 0x8D => some ⟨0x8D, "STA", sta, .Absolute, 3, 4⟩
  | 0x9D => some ⟨0x9D, "STA", sta, .Absolute_X, 3, 5⟩
  | 0x99 => some ⟨0x99, "STA", sta, .Absolute_Y, 3, 5⟩
  | 0x81 => some ⟨0x81, "STA", sta, .Indirect_X, 2, 6⟩
  | 0x91 => some ⟨0x91, "STA", sta, .Indirect_Y, 2, 6⟩
  | 0x86 => some ⟨0x86, "STX", stx, .ZeroPage, 2, 3⟩
  | 0x96 => some ⟨0x96, "STX", stx, .ZeroPage_Y, 2, 4⟩
  | 0x8E => some ⟨0x8E, "STX", stx, .Absolute, 3, 4⟩
  | 0x84 => some ⟨0x84, "STY", sty, .ZeroPage, 2, 3⟩
  | 0x94 => some ⟨0x94, "STY", sty, .ZeroPage_X, 2, 4⟩
  | 0x8C => some ⟨0x8C, "STY", sty, .Absolute, 3, 4⟩
  | 0xAA => some ⟨0xAA, "TAX", tax, .NoneAddressing, 1, 2⟩
  | 0xA8 => some ⟨0xA8, "TAY", tay, .NoneAddressing, 1, 2⟩
  | 0xBA => some ⟨0xBA, "TSX", tsx, .NoneAddressing, 1, 2⟩
  | 0x8A => some ⟨0x8A, "TXA", txa, .NoneAddressing, 1, 2⟩
  | 0x9A => some ⟨0x9A, "TXS", txs, .NoneAddressing, 1, 2⟩
  | 0x98 => some ⟨0x98, "TYA", tya, .NoneAddressing, 1, 2⟩
  | 0x29 => some ⟨0x29, "AND", and', .Immediate, 2, 2⟩
  | 0x25 => some ⟨0x25, "AND", and', .ZeroPage, 2, 3⟩
  | 0x35 => some ⟨0x35, "AND", and', .ZeroPage_X, 2, 4⟩
  | 0x2D => some ⟨0x2D, "AND", and', .Absolute, 3, 4⟩
  | 0x3D => some ⟨0x3D, "AND", and', .Absolute_X, 3, 4⟩
  | 0x39 => some ⟨0x39, "AND", and', .Absolute_Y, 3, 4⟩
  | 0x21 => some ⟨0x21, "AND", and', .Indirect_X, 2, 6⟩
  | 0x31 => some ⟨0x31, "AND", and', .Indirect_Y, 2, 5⟩
  | 0x49 => some ⟨0x49, "EOR", eor, .Immediate, 2, 2⟩
  | 0x45 => some ⟨0x45, "EOR", eor, .ZeroPage, 2, 3⟩
  | 0x55 => some ⟨0x55, "EOR", eor, .ZeroPage_X, 2, 4⟩
  | 0x4D => some ⟨0x4D, "EOR", eor, .Absolute, 3, 4⟩
  | 0x5D => some ⟨0x5D, "EOR", eor, .Absolute_X, 3, 4⟩
  | 0x59 => some ⟨0x59, "EOR", eor, .Absolute_Y, 3, 4⟩
  | 0x41 => some ⟨0x41, "EOR", eor, .Indirect_X, 2, 6⟩
  | 0x51 => some ⟨0x51, "EOR", eor, .Indirect_Y, 2, 5⟩
  | 0x09 => some ⟨0x09, "ORA", ora, .Immediate, 2, 2⟩
  | 0x05 => some ⟨0x05, "ORA", ora, .ZeroPage, 2, 3⟩
  | 0x15 => some ⟨0x15, "ORA", ora, .ZeroPage_X, 2, 4⟩
  | 0x0D => some ⟨0x0D, "ORA", ora, .Absolute, 3, 4⟩
  | 0x1D => some ⟨0x1D, "ORA", ora, .Absolute_X, 3, 4⟩
  | 0x19 => some ⟨0x19, "ORA", ora, .Absolute_Y, 3, 4⟩
  | 0x01 => some ⟨0x01, "ORA", ora, .Indirect_X, 2, 6⟩
  | 0x11 => some ⟨0x11, "ORA", ora, .Indirect_Y, 2, 5⟩
  | 0x24 => some ⟨0x24, "BIT", bit, .ZeroPage, 2, 3⟩
  | 0x2C => some ⟨0x2C, "BIT", bit, .Absolute, 3, 4⟩
  | 0x69 => some ⟨0x69, "ADC", adc, .Immediate, 2, 2⟩
  | 0x65 => some ⟨0x65, "ADC", adc, .ZeroPage, 2, 3⟩
  | 0x75 => some ⟨0x75, "ADC", adc, .ZeroPage_X, 2, 4⟩
  | 0x6D => some ⟨0x6D, "ADC", adc, .Absolute, 3, 4⟩
  | 0x7D => some ⟨0x7D, "ADC", adc, .Absolute_X, 3, 4⟩
  | 0x79 => some ⟨0x79, "ADC", adc, .Absolute_Y, 3, 4⟩
  | 0x61 => some ⟨0x61, "ADC", adc, .Indirect_X, 2, 6⟩
  | 0x71 => some ⟨0x71, "ADC", adc, .Indirect_Y, 2, 5⟩
  | 0xE9 => some ⟨0xE9, "SBC", sbc, .Immediate, 2, 2⟩
  | 0xE5 => some ⟨0xE5, "SBC", sbc, .ZeroPage, 2, 3⟩
  | 0xF5 => some ⟨0xF5, "SBC", sbc, .ZeroPage_X, 2, 4⟩
  | 0xED => some ⟨0xED, "SBC", sbc, .Absolute, 3, 4⟩
  | 0xFD => some ⟨0xFD, "SBC", sbc, .Absolute_X, 3, 4⟩
  | 0xF9 => some ⟨0xF9, "SBC", sbc, .Absolute_Y, 3, 4⟩
  | 0xE1 => some ⟨0xE1, "SBC", sbc, .Indirect_X, 2, 6⟩
  | 0xF1 => some ⟨0xF1, "SBC", sbc, .Indirect_Y, 2, 5⟩
  | 0xC9 => some ⟨0xC9, "CMP", cmp, .Immediate, 2, 2⟩
  | 0xC5 => some ⟨0xC5, "CMP", cmp, .ZeroPage, 2, 3⟩
  | 0xD5 => some ⟨0xD5, "CMP", cmp, .ZeroPage_X, 2, 4⟩
  | 0xCD => some ⟨0xCD, "CMP", cmp, .Absolute, 3, 4⟩
  | 0xDD => some ⟨0xDD, "CMP", cmp, .Absolute_X, 3, 4⟩
  | 0xD9 => some ⟨0xD9, "CMP", cmp, .Absolute_Y, 3, 4⟩
  | 0xC1 => some ⟨0xC1, "CMP", cmp, .Indirect_X, 2, 6⟩
  | 0xD1 => some ⟨0xD1, "CMP", cmp, .Indirect_Y, 2, 5⟩
  | 0xE0 => some ⟨0xE0, "CPX", cpx, .Immediate, 2, 2⟩
  | 0xE4 => some ⟨0xE4, "CPX", cpx, .ZeroPage, 2, 3⟩
  | 0xEC => some ⟨0xEC, "CPX", cpx, .Absolute, 3, 4⟩
  | 0xC0 => some ⟨0xC0, "CPY", cpy, .Immediate, 2, 2⟩
  | 0xC4 => some ⟨0xC4, "CPY", cpy, .ZeroPage, 2, 3⟩
  | 0xCC => some ⟨0xCC, "CPY", cpy, .Absolute, 3, 4⟩
  | 0xE6 => some ⟨0xE6, "INC", inc, .ZeroPage, 2, 5⟩
  | 0xF6 => some ⟨0xF6, "INC", inc, .ZeroPage_X, 2, 6⟩
  | 0xEE => some ⟨0xEE, "INC", inc, .Absolute, 3, 6⟩
  | 0xFE => some ⟨0xFE, "INC", inc, .Absolute_X, 3, 7⟩
  | 0xE8 => some ⟨0xE8, "INX", inx, .NoneAddressing, 1, 2⟩
  | 0xC8 => some ⟨0xC8, "INY", iny, .NoneAddressing, 1, 2⟩
  | 0xC6 => some ⟨0xC6, "DEC", dec, .ZeroPage, 2, 5⟩
  | 0xD6 => some ⟨0xD6, "DEC", dec, .ZeroPage_X, 2, 6⟩
  | 0xCE => some ⟨0xCE, "DEC", dec, .Absolute, 3, 6⟩
  | 0xDE => some ⟨0xDE, "DEC", dec, .Absolute_X, 3, 7⟩
  | 0xCA => some ⟨0xCA, "DEX", dex, .NoneAddressing, 1, 2⟩
  | 0x88 => some ⟨0x88, "DEY", dey, .NoneAddressing, 1, 2⟩
  | 0x0A => some ⟨0x0A, "ASL", asl, .Accumulator, 1, 2⟩
  | 0x06 => some ⟨0x06, "ASL", asl, .ZeroPage, 2, 5⟩
  | 0x16 => some ⟨0x16, "ASL", asl, .ZeroPage_X, 2, 6⟩
  | 0x0E => some ⟨0x0E, "ASL", asl, .Absolute, 3, 6⟩
  | 0x1E => some ⟨0x1E, "ASL", asl, .Absolute_X, 3, 7⟩
  | 0x4A => some ⟨0x4A, "LSR", lsr, .Accumulator, 1, 2⟩
  | 0x46 => some ⟨0x46, "LSR", lsr, .ZeroPage, 2, 5⟩
  | 0x56 => some ⟨0x56, "LSR", lsr, .ZeroPage_X, 2, 6⟩
  | 0x4E => some ⟨0x4E, "LSR", lsr, .Absolute, 3, 6⟩
  | 0x5E => some ⟨0x5E, "LSR", lsr, .Absolute_X, 3, 7⟩
  | 0x2A => some ⟨0x2A, "ROL", rol, .Accumulator, 1, 2⟩
  | 0x26 => some ⟨0x26, "ROL", rol, .ZeroPage, 2, 5⟩
  | 0x36 => some ⟨0x36, "ROL", rol, .ZeroPage_X, 2, 6⟩
  | 0x2E => some ⟨0x2E, "ROL", rol, .Absolute, 3, 6⟩
  | 0x3E => some ⟨0x3E, "ROL", rol, .Absolute_X, 3, 7⟩
  | 0x6A => some ⟨0x6A, "ROR", ror, .Accumulator, 1, 2⟩
  | 0x66 => some ⟨0x66, "ROR", ror, .ZeroPage, 2, 5⟩
  | 0x76 => some ⟨0x76, "ROR", ror, .ZeroPage_X, 2, 6⟩
  | 0x6E => some ⟨0x6E, "ROR", ror, .Absolute, 3, 6⟩
  | 0x7E => some ⟨0x7E, "ROR", ror, .Absolute_X, 3, 7⟩
  | 0x4C => some ⟨0x4C, "JMP", jmp, .Absolute, 3, 3⟩
  | 0x6C => some ⟨0x6C, "JMP", jmp, .Indirect, 3, 5⟩
  | 0x20 => some ⟨0x20, "JSR", jsr, .Absolute, 3, 6⟩
  | 0x60 => some ⟨0x60, "RTS", rts, .NoneAddressing, 1, 6⟩
  | 0x90 => some ⟨0x90, "BCC", bcc, .Relative, 2, 2⟩
  | 0xB0 => some ⟨0xB0, "BCS", bcs, .Relative, 2, 2⟩
  | 0xF0 => some ⟨0xF0, "BEQ", beq, .Relative, 2, 2⟩
  | 0x30 => some ⟨0x30, "BMI", bmi, .Relative, 2, 2⟩
  | 0xD0 => some ⟨0xD0, "BNE", bne, .Relative, 2, 2⟩
  | 0x10 => some ⟨0x10, "BPL", bpl, .Relative, 2, 2⟩
  | 0x50 => some ⟨0x50, "BVC", bvc, .Relative, 2, 2⟩
  | 0x70 => some ⟨0x70, "BVS", bvs, .Relative, 2, 2⟩
  | 0x18 => some ⟨0x18, "CLC", clc, .NoneAddressing, 1, 2⟩
  | 0xD8 => some ⟨0xD8, "CLD", cld, .NoneAddressing, 1, 2⟩
  | 0x58 => some ⟨0x58, "CLI", cli, .NoneAddressing, 1, 2⟩
  | 0xB8 => some ⟨0xB8, "CLV", clv, .NoneAddressing, 1, 2⟩
  | 0x38 => some ⟨0x38, "SEC", sec, .NoneAddressing, 1, 2⟩
  | 0xF8 => some ⟨0xF8, "SED", sed, .NoneAddressing, 1, 2⟩
  | 0x78 => some ⟨0x78, "SEI", sei, .NoneAddressing, 1, 2⟩
  | 0x48 => some ⟨0x48, "PHA", pha, .NoneAddressing, 1, 3⟩
  | 0x08 => some ⟨0x08, "PHP", php, .NoneAddressing, 1, 3⟩
  | 0x68 => some ⟨0x68, "PLA", pla, .NoneAddressing, 1, 4⟩
  | 0x28 => some ⟨0x28, "PLP", plp, .NoneAddressing, 1, 4⟩
  | 0x00 => some ⟨0x00, "BRK", brk, .NoneAddressing, 1, 7⟩
  | 0xEA => some ⟨0xEA, "NOP", nop, .NoneAddressing, 1, 2⟩
  | 0x40 => some ⟨0x40, "RTI", rti, .NoneAddressing, 1, 6⟩
  | 0x1A => some ⟨0x1A, "*NOP", nop, .NoneAddressing, 1, 2⟩
  | 0x3A => some ⟨0x3A, "*NOP", nop, .NoneAddressing, 1, 2⟩
  | 0x5A => some ⟨0x5A, "*NOP", nop, .NoneAddressing, 1, 2⟩
  | 0x7A => some ⟨0x7A, "*NOP", nop, .NoneAddressing, 1, 2⟩
  | 0xDA => some ⟨0xDA, "*NOP", nop, .NoneAddressing, 1, 2⟩
  | 0xFA => some ⟨0xFA, "*NOP", nop, .NoneAddressing, 1, 2⟩
  | 0x80 => some ⟨0x80, "*NOP", nop, .Immediate, 2, 2⟩
  | 0x82 => some ⟨0x82, "*NOP", nop, .Immediate, 2, 2⟩
  | 0x89 => some ⟨0x89, "*NOP", nop, .Immediate, 2, 2⟩
  | 0xC2 => some ⟨0xC2, "*NOP", nop, .Immediate, 2, 2⟩
  | 0xE2 => some ⟨0xE2, "*NOP", nop, .Immediate, 2, 2⟩
  | 0x04 => some ⟨0x04, "*NOP", nop, .ZeroPage, 2, 3⟩
  | 0x44 => some ⟨0x44, "*NOP", nop, .ZeroPage, 2, 3⟩
  | 0x64 => some ⟨0x64, "*NOP", nop, .ZeroPage, 2, 3⟩
  | 0x14 => some ⟨0x14, "*NOP", nop, .ZeroPage_X, 2, 4⟩
  | 0x34 => some ⟨0x34, "*NOP", nop, .ZeroPage_X, 2, 4⟩
  | 0x54 => some ⟨0x54, "*NOP", nop, .ZeroPage_X, 2, 4⟩
  | 0x74 => some ⟨0x74, "*NOP", nop, .ZeroPage_X, 2, 4⟩
  | 0xD4 => some ⟨0xD4, "*NOP", nop, .ZeroPage_X, 2, 4⟩
  | 0xF4 => some ⟨0xF4, "*NOP", nop, .ZeroPage_X, 2, 4⟩
  | 0x0C => some ⟨0x0C, "*NOP", nop, .Absolute, 3, 4⟩
  | 0x1C => some ⟨0x1C, "*NOP", nop, .Absolute_X, 3, 4⟩
  | 0x3C => some ⟨0x3C, "*NOP", nop, .Absolute_X, 3, 4⟩
  | 0x5C => some ⟨0x5C, "*NOP", nop, .Absolute_X, 3, 4⟩
  | 0x7C => some ⟨0x7C, "*NOP", nop, .Absolute_X, 3, 4⟩
  | 0xDC => some ⟨0xDC, "*NOP", nop, .Absolute_X, 3, 4⟩
  | 0xFC => some ⟨0xFC, "*NOP", nop, .Absolute_X, 3, 4⟩
  | 0x4B => some ⟨0x4B, "*ALR", alr, .Immediate, 2, 2⟩
  | 0x0B => some ⟨0x0B, "*ANC", anc, .Immediate, 2, 2⟩
  | 0x2B => some ⟨0x2B, "*ANC", anc, .Immediate, 2, 2⟩
  | 0x6B => some ⟨0x6B, "*ARR", arr, .Immediate, 2, 2⟩
  | 0xCB => some ⟨0xCB, "*AXS", axs, .Immediate, 2, 2⟩
  | 0xA7 => some ⟨0xA7, "*LAX", lax, .ZeroPage, 2, 3⟩
  | 0xB7 => some ⟨0xB7, "*LAX", lax, .ZeroPage_Y, 2, 4⟩
  | 0xAF => some ⟨0xAF, "*LAX", lax, .Absolute, 3, 4⟩
  | 0xBF => some ⟨0xBF, "*LAX", lax, .Absolute_Y, 3, 4⟩
  | 0xA3 => some ⟨0xA3, "*LAX", lax, .Indirect_X, 2, 6⟩
  | 0xB3 => some ⟨0xB3, "*LAX", lax, .Indirect_Y, 2, 5⟩
  | 0x87 => some ⟨0x87, "*SAX", sax, .ZeroPage, 2, 3⟩
  | 0x97 => some ⟨0x97, "*SAX", sax, .ZeroPage_Y, 2, 4⟩
  | 0x8F => some ⟨0x8F, "*SAX", sax, .Absolute, 3, 4⟩
  | 0x83 => some ⟨0x83, "*SAX", sax, .Indirect_X, 2, 6⟩
  | 0xC7 => some ⟨0xC7, "*DCP", dcp, .ZeroPage, 2, 5⟩
  | 0xD7 => some ⟨0xD7, "*DCP", dcp, .ZeroPage_X, 2, 6⟩
  | 0xCF => some ⟨0xCF, "*DCP", dcp, .Absolute, 3, 6⟩
  | 0xDF => some ⟨0xDF, "*DCP", dcp, .Absolute_X, 3, 7⟩
  | 0xDB => some ⟨0xDB, "*DCP", dcp, .Absolute_Y, 3, 7⟩
  | 0xC3 => some ⟨0xC3, "*DCP", dcp, .Indirect_X, 2, 8⟩
  | 0xD3 => some ⟨0xD3, "*DCP", dcp, .Indirect_Y, 2, 8⟩
  | 0xE7 => some ⟨0xE7, "*ISB", isc, .ZeroPage, 2, 5⟩
  | 0xF7 => some ⟨0xF7, "*ISB", isc, .ZeroPage_X, 2, 6⟩
  | 0xEF => some ⟨0xEF, "*ISB", isc, .Absolute, 3, 6⟩
  | 0xFF => some ⟨0xFF, "*ISB", isc, .Absolute_X, 3, 7⟩
  | 0xFB => some ⟨0xFB, "*ISB", isc, .Absolute_Y, 3, 7⟩
  | 0xE3 => some ⟨0xE3, "*ISB", isc, .Indirect_X, 2, 8⟩
  | 0xF3 => some ⟨0xF3, "*ISB", isc, .Indirect_Y, 2, 8⟩
  | 0x27 => some ⟨0x27, "*RLA", rla, .ZeroPage, 2, 5⟩
  | 0x37 => some ⟨0x37, "*RLA", rla, .ZeroPage_X, 2, 6⟩
  | 0x2F => some ⟨0x2F, "*RLA", rla, .Absolute, 3, 6⟩
  | 0x3F => some ⟨0x3F, "*RLA", rla, .Absolute_X, 3, 7⟩
  | 0x3B => some ⟨0x3B, "*RLA", rla, .Absolute_Y, 3, 7⟩
  | 0x23 => some ⟨0x23, "*RLA", rla, .Indirect_X, 2, 8⟩
  | 0x33 => some ⟨0x33, "*RLA", rla, .Indirect_Y, 2, 8⟩
  | 0x67 => some ⟨0x67, "*RRA", rra, .ZeroPage, 2, 5⟩
  | 0x77 => some ⟨0x77, "*RRA", rra, .ZeroPage_X, 2, 6⟩
  | 0x6F => some ⟨0x6F, "*RRA", rra, .Absolute, 3, 6⟩
  | 0x7F => some ⟨0x7F, "*RRA", rra, .Absolute_X, 3, 7⟩
  | 0x7B => some ⟨0x7B, "*RRA", rra, .Absolute_Y, 3, 7⟩
  | 0x63 => some ⟨0x63, "*RRA", rra, .Indirect_X, 2, 8⟩
  | 0x73 => some ⟨0x73, "*RRA", rra, .Indirect_Y, 2, 8⟩
  | 0x07 => some ⟨0x07, "*SLO", slo, .ZeroPage, 2, 5⟩
  | 0x17 => some ⟨0x17, "*SLO", slo, .ZeroPage_X, 2, 6⟩
  | 0x0F => some ⟨0x0F, "*SLO", slo, .Absolute, 3, 6⟩
  | 0x1F => some ⟨0x1F, "*SLO", slo, .Absolute_X, 3, 7⟩
  | 0x1B => some ⟨0x1B, "*SLO", slo, .Absolute_Y, 3, 7⟩
  | 0x03 => some ⟨0x03, "*SLO", slo, .Indirect_X, 2, 8⟩
  | 0x13 => some ⟨0x13, "*SLO", slo, .Indirect_Y, 2, 8⟩
  | 0x47 => some ⟨0x47, "*SRE", sre, .ZeroPage, 2, 5⟩
  | 0x57 => some ⟨0x57, "*SRE", sre, .ZeroPage_X, 2, 6⟩
  | 0x4F => some ⟨0x4F, "*SRE", sre, .Absolute, 3, 6⟩
  | 0x5F => some ⟨0x5F, "*SRE", sre, .Absolute_X, 3, 7⟩
  | 0x5B => some ⟨0x5B, "*SRE", sre, .Absolute_Y, 3, 7⟩
  | 0x43 => some ⟨0x43, "*SRE", sre, .Indirect_X, 2, 8⟩
  | 0x53 => some ⟨0x53, "*SRE", sre, .Indirect_Y, 2, 8⟩
  | 0xEB => some ⟨0xEB, "*SBC", sbc, .Immediate, 2, 2⟩
  | _ => none

/-- One iteration of the body of `CPU::run_with_callback`: fetch the
opcode byte at PC, look it up, execute the handler with the table's
addressing mode.  `none` embeds the panics (unknown opcode or an
unsupported addressing mode). -/
def step (s : CPUState) : Option CPUState :=
  let (b, s1) := s.readPcU8
  match decode b with
  | none => none
  | some e => e.op e.mode s1

/-! ## Cartridge images (`mem::rom`) -/

/-- `mem::rom::Mirroring`. -/
inductive Mirroring where
  | Vertical
  | Horizontal
  | FourScreen
deriving DecidableEq, Repr

/-- `mem::rom::Rom` (byte vectors as lists of bytes). -/
structure Rom where
  prg_rom : List Nat
  chr_rom : List Nat
  mapper : Nat
  screen_mirroring : Mirroring

def NES_TAG : List Nat := [0x4E, 0x45, 0x53, 0x1A]
def PRG_ROM_PAGE_SIZE : Nat := 16384
def CHR_ROM_PAGE_SIZE : Nat := 8192

/-- `Rom::new`, the iNES v1 parser.  Rust's panicking indexing/slicing
(`raw[6]`, `raw[a..b]`) is embedded with `getD`/`drop`/`take`; on a
well-formed image (long enough, which the theorems below hypothesise)
these agree with the source. -/
def Rom.new (raw : List Nat) : Except String Rom :=
  if raw.take 4 ≠ NES_TAG then
    .error "File is not in iNES file format"
  else
    let control_byte_1 := raw.getD 6 0
    let control_byte_2 := raw.getD 7 0
    if control_byte_1 &&& 0b00001100 ≠ 0 then
      .error "Only iNES 1.0 file format is supported"
    else
      let vertical_mirroring_flag := control_byte_2 &&& 0b00000001 != 0
      let trainer_flag := control_byte_2 &&& 0b00000100 != 0
      let four_screen_flag := control_byte_2 &&& 0b00001000 != 0
      let mapper := (control_byte_2 &&& 0b11110000) ||| (control_byte_1 >>> 4)
      let screen_mirroring :=
        if four_screen_flag then Mirroring.FourScreen
        else if vertical_mirroring_flag then Mirroring.Vertical
        else Mirroring.Horizontal
      let prg_rom_size := raw.getD 4 0 * PRG_ROM_PAGE_SIZE
      let chr_rom_size := raw.getD 5 0 * CHR_ROM_PAGE_SIZE
      let prg_rom_start := 16 + if trainer_flag then 512 else 0
      let chr_rom_start := prg_rom_start + prg_rom_size
      .ok { prg_rom := (raw.drop prg_rom_start).take prg_rom_size
            chr_rom := (raw.drop chr_rom_start).take chr_rom_size
            mapper := mapper
            screen_mirroring := screen_mirroring }

/-! ## PPU (`ppu::mod` and `ppu::register`) -/

/-- `bitflags` `contains` for a single-bit flag. -/
def bitsContain (bits flag : Nat) : Bool := bits &&& flag != 0

/-- `PPUSTATUS::VBLANK` (bit 7, `ppu/register/mod.rs`). -/
def VBLANK : Nat := 0b10000000

/-- Modelled from the spec: the file `ppu/register/control_reg.rs`
defining the `PPUCTRL` bitflags is absent from the source tree (only its
callers and the identical legacy `ControlRegister` in `ppu/register.rs`
are present).  Per the spec's PPUCTRL description, the legacy bitflags
and the PPU unit tests: `GENERATE_NMI` is bit 7. -/
def GENERATE_NMI : Nat := 0b10000000

/-- Modelled from the spec (see `GENERATE_NMI`): bit 2 of PPUCTRL
selects a VRAM address increment of 1 or 32. -/
def VRAM_ADD_INCREMENT : Nat := 0b00000100

/-- Modelled from the spec (see `GENERATE_NMI`): `PPUCTRL::update`
latches the whole written byte (`from_bits_truncate`), as the PPU unit
tests require. -/
def ctrlUpdate (_ctrl value : Nat) : Nat := wrap8 value

/-- Modelled from the spec (see `GENERATE_NMI`):
`PPUCTRL::vram_addr_increment`. -/
def vramAddrIncrement (ctrl : Nat) : Nat :=
  if bitsContain ctrl VRAM_ADD_INCREMENT then 32 else 1

/-- `ppu::register::ppu_address::PPUADDRESS`: high and low byte of the
latched 14-bit VRAM address. -/
structure PPUADDRESS where
  hi : Nat
  lo : Nat

def PPUADDRESS.new : PPUADDRESS := ⟨0, 0⟩

/-- `PPUADDRESS::get`. -/
def PPUADDRESS.get (p : PPUADDRESS) : Nat := (p.hi <<< 8) ||| p.lo

/-- `PPUADDRESS::set`. -/
def PPUADDRESS.set (_p : PPUADDRESS) (data : Nat) : PPUADDRESS :=
  { hi := wrap8 (data >>> 8), lo := data &&& 0xFF }

/-- `PPUADDRESS::update`: fill high or low byte per the shared `w`
latch, mask to 14 bits, toggle `w`. -/
def PPUADDRESS.update (p : PPUADDRESS) (data : Nat) (w : Bool) :
    PPUADDRESS × Bool :=
  let p := if w then { p with lo := wrap8 data } else { p with hi := wrap8 data }
  let p := if 0x3FFF < p.get then p.set (p.get &&& 0b11111111111111) else p
  (p, !w)

/-- `PPUADDRESS::increment`. -/
def PPUADDRESS.increment (p : PPUADDRESS) (inc : Nat) : PPUADDRESS :=
  let value := wrap8 (p.lo + inc)
  let overflow := decide (256 ≤ p.lo + inc)
  let p : PPUADDRESS :=
    { lo := value, hi := if overflow then wrap8 (p.hi + 1) else p.hi }
  if 0x3FFF < p.get then p.set (p.get &&& 0x3FFF) else p

/-- `ppu::PPU` (the state touched by the bus-facing interface). -/
structure PPU where
  chr_rom : List Nat
  vram : Nat → Nat
  palette_table : Nat → Nat
  oam_data : Nat → Nat
  mirroring : Mirroring
  cycle : Nat
  scanline : Nat
  nmi_pending : Bool
  ctrl : Nat
  mask : Nat
  status : Nat
  oam_addr : Nat
  ppu_addr : PPUADDRESS
  ppu_data_buf : Nat
  w_reg : Bool

/-- `PPU::new`. -/
def PPU.new (chr_rom : List Nat) (mirroring : Mirroring) : PPU :=
  { chr_rom := chr_rom
    vram := fun _ => 0
    palette_table := fun _ => 0
    oam_data := fun _ => 0
    mirroring := mirroring
    cycle := 0
    scanline := 0
    nmi_pending := false
    ctrl := 0
    mask := 0
    status := 0
    oam_addr := 0
    ppu_addr := PPUADDRESS.new
    ppu_data_buf := 0
    w_reg := false }

/-- `PPU::write_to_ctrl`: latch the control byte; the source computes
`generate_nmi_check` from the OLD ctrl containing `GENERATE_NMI` and the
NEW value NOT containing it, and sets `nmi_pending` when that check
holds and VBlank is set in `PPUSTATUS`. -/
def PPU.writeToCtrl (p : PPU) (value : Nat) : PPU :=
  let generate_nmi_check :=
    bitsContain p.ctrl GENERATE_NMI && !bitsContain (wrap8 value) GENERATE_NMI
  let p := { p with ctrl := ctrlUpdate p.ctrl value }
  if generate_nmi_check && bitsContain p.status VBLANK then
    { p with nmi_pending := true }
  else p

/-- `PPU::read_status`: clear the shared `w` latch, return the status
bits. -/
def PPU.readStatus (p : PPU) : Nat × PPU :=
  (p.status, { p with w_reg := false })

/-- `PPU::mirror_vram_addr`. -/
def PPU.mirrorVramAddr (p : PPU) (addr : Nat) : Nat :=
  let mirrored_vram := addr &&& 0b10111111111111
  let vram_index := mirrored_vram - 0x2000
  let name_table := vram_index / 0x400
  match p.mirroring, name_table with
  | .Vertical, 2 => vram_index - 0x800
  | .Vertical, 3 => vram_index - 0x800
  | .Horizontal, 2 => vram_index - 0x400
  | .Horizontal, 1 => vram_index - 0x400
  | .Horizontal, 3 => vram_index - 0x800
  | _, _ => vram_index

/-- `PPU::increment_vram_addr`. -/
def PPU.incrementVramAddr (p : PPU) : PPU :=
  { p with ppu_addr := p.ppu_addr.increment (vramAddrIncrement p.ctrl) }

/-- `PPU::read_data`: buffered PPUDATA read; the panicking arms and a
`chr_rom` access out of bounds are `.error`. -/
def PPU.readData (p : PPU) : Except String (Nat × PPU) :=
  let addr := p.ppu_addr.get
  let p := p.incrementVramAddr
  if addr ≤ 0x1FFF then
    match p.chr_rom.get? addr with
    | none => .error "chr_rom index out of bounds"
    | some c =>
      .ok (p.ppu_data_buf, { p with ppu_data_buf := wrap8 c })
  else if addr ≤ 0x2FFF then
    .ok (p.ppu_data_buf,
      { p with ppu_data_buf := wrap8 (p.vram (p.mirrorVramAddr addr)) })
  else if addr ≤ 0x3EFF then
    .error "addr space 0x3000..0x3eff is not expected to be used"
  else if addr ≤ 0x3FFF then
    .ok (wrap8 (p.palette_table ((addr - 0x3F00) % 32)), p)
  else
    .error "unexpected access to mirrored space"

/-! ## Bus (`mem::bus`) -/

/-- `mem::bus::Bus`. -/
structure Bus where
  cpu_ram : Nat → Nat
  rom : Option Rom
  ppu : Option PPU

/-- `Bus::new`: no cartridge, no PPU, zeroed RAM. -/
def Bus.new : Bus :=
  { cpu_ram := fun _ => 0, rom := none, ppu := none }

/-- `Bus::insert_rom`: install a cartridge and create the PPU from its
CHR bytes and mirroring. -/
def Bus.insertRom (b : Bus) (rom : Rom) : Bus :=
  { b with rom := some rom, ppu := some (PPU.new rom.chr_rom rom.screen_mirroring) }

/-- `Bus::read_prg_rom`: PRG read with 16KB mirroring; no cartridge, or
an index beyond the PRG vector, panics (`.error`). -/
def Bus.readPrgRom (b : Bus) (addr : Nat) : Except String Nat :=
  match b.rom with
  | some rom =>
    let addr := addr - 0x8000
    let addr :=
      if rom.prg_rom.length = 0x4000 ∧ 0x4000 ≤ addr then addr % 0x4000 else addr
    match rom.prg_rom.get? addr with
    | none => .error "prg_rom index out of bounds"
    | some v => .ok (wrap8 v)
  | none => .error "Trying to read ROM without a cartridge"

/-- `<Bus as Memory>::mem_read_u8`: the address decoder for CPU reads.
Panics (missing PPU or cartridge, write-only or unimplemented PPU
register reads) are `.error`; reads of `$2007` may mutate the PPU. -/
def Bus.memReadU8 (b : Bus) (addr : Nat) : Except String (Nat × Bus) :=
  if addr ≤ 0x1FFF then
    .ok (wrap8 (b.cpu_ram (addr &&& 0b0000011111111111)), b)
  else if addr ≤ 0x3FFF then
    match b.ppu with
    | none => .error "Attempt to read from PPU without a PPU instance"
    | some p =>
      let m := addr &&& 0b0010000000000111
      if m = 0x2000 ∨ m = 0x2001 ∨ m = 0x2003 ∨ m = 0x2005 ∨ m = 0x2006 ∨
          m = 0x4014 then
        .error "Attempt to read from write-only PPU address"
      else if m = 0x2007 then
        match p.readData with
        | .error e => .error e
        | .ok (v, p') => .ok (v, { b with ppu := some p' })
      else
        .error "PPU register read not implemented for address"
  else if 0x8000 ≤ addr ∧ addr ≤ 0xFFFF then
    match b.readPrgRom addr with
    | .error e => .error e
    | .ok v => .ok (v, b)
  else
    -- "Ignoring mem access": logged, returns 0
    .ok (0, b)

/-- Whether a bus/PPU operation panicked. -/
def isErr {α : Type} (x : Except String α) : Bool :=
  match x with
  | .error _ => true
  | .ok _ => false

/-! ## Concrete states and statement-level predicates used by the theorems -/

/-- A concrete all-zero memory. -/
def zeroMem : Mem := fun _ => 0

/-- A concrete CPU (zeroed registers over zeroed memory). -/
def cpu0 : CPUState := ⟨0, 0, 0, 0, 0, 0, zeroMem⟩

/-- A concrete CPU for the AXS counterexample: `A = 0xF0`, `X = 0xCC`,
every memory byte `0x50`. -/
def axsCx : CPUState := ⟨0, 0, 0, 0xF0, 0xCC, 0, fun _ => 0x50⟩

/-- The state `axs` produces from `axsCx`. -/
def axsCxOut : CPUState := (axs .Immediate axsCx).getD cpu0

/-- A PPU with no cartridge data and VBlank set in `PPUSTATUS`. -/
def ppuVb : PPU := { PPU.new [] .Horizontal with status := VBLANK }

/-- A 16-byte header-only image with byte 6 = `0x01` (the claim's
vertical-mirror flag position). -/
def rawByte6V : List Nat :=
  [0x4E, 0x45, 0x53, 0x1A, 0, 0, 0x01, 0x00, 0, 0, 0, 0, 0, 0, 0, 0]

/-- A 16-byte header-only image with byte 7 = `0x03` (nonzero lower two
bits of the claim's version-check position). -/
def rawByte7Low : List Nat :=
  [0x4E, 0x45, 0x53, 0x1A, 0, 0, 0x00, 0x03, 0, 0, 0, 0, 0, 0, 0, 0]

/-- A 16-byte header-only image with byte 6 = `0x04` (the claim's
trainer-present flag position). -/
def rawByte6T : List Nat :=
  [0x4E, 0x45, 0x53, 0x1A, 0, 0, 0x04, 0x00, 0, 0, 0, 0, 0, 0, 0, 0]

/-- The claim's concrete scenario: `[6C FF 10]` at `$0600`,
`$10FF = $34`, `$1000 = $12`, `$1100 = $56`. -/
def jmpBugMem : Mem := fun a =>
  if a = 0x0600 then 0x6C else if a = 0x0601 then 0xFF
  else if a = 0x0602 then 0x10 else if a = 0x10FF then 0x34
  else if a = 0x1000 then 0x12 else if a = 0x1100 then 0x56 else 0

def jmpBugCpu : CPUState := ⟨0x0600, 0, 0, 0, 0, 0, jmpBugMem⟩

/-- The spec's subroutine scenario: `[20 00 30]` at `$0600` and `[60]`
(RTS) at `$3000`, SP = `0xFF`. -/
def jsrMem : Mem := fun a =>
  if a = 0x0600 then 0x20 else if a = 0x0601 then 0x00
  else if a = 0x0602 then 0x30 else if a = 0x3000 then 0x60 else 0

def jsrCpu : CPUState := ⟨0x0600, 0, 0xFF, 0, 0, 0, jsrMem⟩

def jsrCpu1 : CPUState := (step jsrCpu).getD cpu0

def jsrCpu3 : CPUState := (step jsrCpu1).getD cpu0

/-- The claim's flag property: Zero iff the result is zero, Negative
iff bit 7 of the result. -/
def ZNfrom (status r : Nat) : Prop :=
  getFlag status flagZero = (r == 0) ∧ getFlag status flagNegative = r.testBit 7

/-- The claim's shape for a handler whose governing result lands in a
register (`proj`). -/
def ZNreg (f : AddressingMode → CPUState → Option CPUState)
    (proj : CPUState → Nat) : Prop :=
  ∀ (mode : AddressingMode) (s s' : CPUState), f mode s = some s' →
    ZNfrom s'.status (proj s')

/-- The claim's shape for a shift in accumulator mode. -/
def ZNacc (f : AddressingMode → CPUState → Option CPUState) : Prop :=
  ∀ s s' : CPUState, f .Accumulator s = some s' → ZNfrom s'.status s'.reg_a

/-- The claim's shape for a handler whose governing result is the byte
stored at the resolved address. -/
def ZNmem (f : AddressingMode → CPUState → Option CPUState) : Prop :=
  ∀ (mode : AddressingMode) (s : CPUState) (addr : Nat) (s1 s' : CPUState),
    mode ≠ .Accumulator → getAddress mode s = some (addr, s1) →
    f mode s = some s' → ZNfrom s'.status (s'.mem.read addr)

/-- A concrete CPU for the DCP counterexample: `A = 3`, zero-page
operand `$10` holding `4` (so the decremented value is `3`). -/
def dcpCx : CPUState :=
  ⟨0, 0, 0, 3, 0, 0, fun a => if a = 0 then 0x10 else if a = 0x10 then 4 else 0⟩

/-- The state `lda #imm` produces from `cpu0`. -/
def ldaOut : CPUState := (lda .Immediate cpu0).getD cpu0

/-! ## Arithmetic and bit-level helper lemmas -/

lemma wrap8_lt (n : Nat) : wrap8 n < 256 := Nat.mod_lt _ (by omega)

lemma wrap16_lt (n : Nat) : wrap16 n < 65536 := Nat.mod_lt _ (by omega)

lemma wrap8_eq_of_lt {n : Nat} (h : n < 256) : wrap8 n = n := Nat.mod_eq_of_lt h

lemma wrap16_eq_of_lt {n : Nat} (h : n < 65536) : wrap16 n = n :=
  Nat.mod_eq_of_lt h

lemma Mem.read_lt (m : Mem) (a : Nat) : m.read a < 256 := wrap8_lt _

lemma Mem.read_write_same (m : Mem) (a b v : Nat) (hab : wrap16 a = wrap16 b) :
    (m.write a v).read b = wrap8 v := by
  simp [Mem.read, Mem.write, ← hab, wrap8_eq_of_lt (wrap8_lt v)]

lemma Mem.read_write_other (m : Mem) (a b v : Nat)
    (hab : wrap16 a ≠ wrap16 b) : (m.write a v).read b = m.read b := by
  simp [Mem.read, Mem.write, Ne.symm hab]

lemma and_pow_ne (x i : Nat) : (x &&& 2 ^ i != 0) = x.testBit i := by
  cases h : x.testBit i <;> simp [Nat.and_two_pow, h]

lemma getFlag_pow (x i : Nat) : getFlag x (2 ^ i) = x.testBit i := by
  simp [getFlag, and_pow_ne]

lemma getFlag_updateZN_zero (st r : Nat) :
    getFlag (updateZN st r) flagZero = (r == 0) := by
  have h : flagZero = 2 ^ 1 := rfl
  rw [updateZN, h, getFlag_pow]
  cases hz : (r == 0) <;> cases hn : (r &&& 128 != 0) <;>
    simp +decide [set_bit, hz, hn, flagZero, flagNegative, Nat.testBit_or,
      Nat.testBit_and]

lemma getFlag_updateZN_neg (st r : Nat) :
    getFlag (updateZN st r) flagNegative = r.testBit 7 := by
  have h : flagNegative = 2 ^ 7 := rfl
  rw [updateZN, h, getFlag_pow, ← and_pow_ne r 7]
  cases hz : (r == 0) <;> cases hn : (r &&& 2 ^ 7 != 0) <;>
    simp +decide [set_bit, hz, hn, flagZero, flagNegative, Nat.testBit_or,
      Nat.testBit_and]

lemma getFlag_updateZN_other (st r : Nat) (i : Nat) (hi : i < 8)
    (h1 : i ≠ 1) (h7 : i ≠ 7) :
    getFlag (updateZN st r) (2 ^ i) = getFlag st (2 ^ i) := by
  interval_cases i <;> try omega
  all_goals
    rw [updateZN, getFlag_pow, getFlag_pow]
    cases hz : (r == 0) <;> cases hn : (r &&& 128 != 0) <;>
      (simp only [set_bit, hz, hn, flagZero, flagNegative, if_true, if_false,
        Bool.false_eq_true, Bool.true_eq_false, ite_true, ite_false,
        Nat.testBit_or, Nat.testBit_and]
       simp +decide [Nat.testBit_to_div_mod])

lemma getFlag_setFlag_self (st : Nat) (b : Bool) (i : Nat) (hi : i < 8) :
    getFlag (setFlag st (2 ^ i) b) (2 ^ i) = b := by
  interval_cases i <;>
    (rw [setFlag, getFlag_pow]
     cases b <;>
       (simp [Nat.testBit_or, Nat.testBit_and, Nat.testBit_xor]
        try simp +decide [Nat.testBit_to_div_mod]))

lemma getFlag_setFlag_other (st : Nat) (b : Bool) (i j : Nat) (hi : i < 8)
    (hj : j < 8) (hij : i ≠ j) :
    getFlag (setFlag st (2 ^ i) b) (2 ^ j) = getFlag st (2 ^ j) := by
  interval_cases i <;> interval_cases j <;> try omega
  all_goals
    rw [setFlag, getFlag_pow, getFlag_pow]
    cases b <;>
      (simp [Nat.testBit_or, Nat.testBit_and, Nat.testBit_xor]
       try simp +decide [Nat.testBit_to_div_mod])

/-- `get_address` only consumes operand bytes: registers, status, stack
and memory are untouched. -/
lemma getAddress_preserves {mode : AddressingMode} {s : CPUState}
    {addr : Nat} {s1 : CPUState} (h : getAddress mode s = some (addr, s1)) :
    s1.status = s.status ∧ s1.stack = s.stack ∧ s1.reg_a = s.reg_a ∧
    s1.reg_x = s.reg_x ∧ s1.reg_y = s.reg_y ∧ s1.mem = s.mem := by
  cases mode <;>
    simp only [getAddress, CPUState.readPcU8, CPUState.readPcU16,
      Option.some.injEq, Prod.mk.injEq, reduceCtorEq] at h <;>
    obtain ⟨-, h2⟩ := h <;> subst h2 <;> exact ⟨rfl, rfl, rfl, rfl, rfl, rfl⟩

/-- Under the `u16` invariant the `Immediate` mode resolves to the old
PC and advances PC by one. -/
lemma getAddress_immediate (s : CPUState) (hpc : s.pc < 65536) :
    getAddress .Immediate s = some (s.pc, { s with pc := wrap16 (s.pc + 1) }) := by
  simp only [getAddress, Option.some.injEq, Prod.mk.injEq, and_true]
  simp only [wrap16]
  omega

/-! ## C1 — `CPU::reset` -/

/-- C1, counterexample: after `reset` the stack pointer is
`INIT_STACK_POINTER = 0xFF`, not `0xFD` as the claim states. -/
theorem reset_sp_ne_fd : cpu0.reset.stack ≠ 0xFD := by decide

/-- C1 (amended): `reset` zeroes A, X and Y, sets SP to `0xFF`
(`INIT_STACK_POINTER`), sets P to `0x24`, and loads PC from the 16-bit
little-endian value at `$FFFC`, for every prior state and memory. -/
theorem reset_spec (s : CPUState) :
    s.reset.reg_a = 0 ∧ s.reset.reg_x = 0 ∧ s.reset.reg_y = 0 ∧
    s.reset.stack = 0xFF ∧ s.reset.status = 0x24 ∧
    s.reset.pc = s.mem.read16 0xFFFC :=
  ⟨rfl, rfl, rfl, rfl, rfl, rfl⟩

/-! ## C6 — 16-bit wrap-around of PC and address arithmetic -/

/-- C6: fetching a byte at PC = `$FFFF` wraps PC to `$0000`, and a
16-bit read at `$FFFF` takes its high byte from `$0000`. -/
theorem pc_and_address_wrap :
    (∀ s : CPUState, s.pc = 0xFFFF → s.readPcU8.2.pc = 0) ∧
    (∀ m : Mem, m.read16 0xFFFF = ((m.read 0) <<< 8) ||| m.read 0xFFFF) := by
  constructor
  · intro s h
    simp [CPUState.readPcU8, h, wrap16]
  · intro m
    rfl

/-- Witness for C6 at a concrete state and memory. -/
theorem pc_and_address_wrap_witness :
    ({ cpu0 with pc := 0xFFFF } : CPUState).readPcU8.2.pc = 0 ∧
    Mem.read16 zeroMem 0xFFFF =
      ((Mem.read zeroMem 0) <<< 8) ||| Mem.read zeroMem 0xFFFF :=
  ⟨pc_and_address_wrap.1 { cpu0 with pc := 0xFFFF } rfl,
   pc_and_address_wrap.2 zeroMem⟩

/-! ## C2 — the AXS combined op -/

/-- Carry, after `update_zero_and_negative_flags` ran on top of a
`set_flag` of Carry, is the set value. -/
lemma getFlag_carry_updateZN_setFlag (st r : Nat) (b : Bool) :
    getFlag (updateZN (setFlag st flagCarry b) r) flagCarry = b := by
  have h : flagCarry = 2 ^ 0 := rfl
  rw [h, getFlag_updateZN_other _ _ 0 (by omega) (by omega) (by omega),
    getFlag_setFlag_self _ _ _ (by omega)]

/-- C2, counterexample: with `A AND X = 0xC0 ≥ M = 0x50` the claim
demands Carry set, but `axs` leaves Carry clear. -/
theorem axs_carry_counterexample :
    ((axs .Immediate axsCx).map fun s => getFlag s.status flagCarry) =
      some false ∧
    0x50 ≤ 0xF0 &&& 0xCC := by decide

/-- C2 (amended): `AXS` sets `X ← (A AND X) − M` mod 256 and Z/N from
the new X, but sets Carry exactly when `(A AND X) < M` (the borrow —
the opposite polarity of the claim). -/
theorem axs_spec (s s' : CPUState) (hwf : s.Wf)
    (h : axs .Immediate s = some s') :
    s'.reg_x = wsub8 (s.reg_a &&& s.reg_x) (s.mem.read s.pc) ∧
    getFlag s'.status flagCarry =
      decide (s.reg_a &&& s.reg_x < s.mem.read s.pc) ∧
    getFlag s'.status flagZero = (s'.reg_x == 0) ∧
    getFlag s'.status flagNegative = s'.reg_x.testBit 7 := by
  rw [axs, getAddress_immediate s hwf.1] at h
  simp only [Option.some.injEq] at h
  subst h
  refine ⟨rfl, ?_, ?_, ?_⟩
  · exact getFlag_carry_updateZN_setFlag _ _ _
  · exact getFlag_updateZN_zero _ _
  · exact getFlag_updateZN_neg _ _

/-- Witness for C2 at the concrete state `axsCx`. -/
theorem axs_spec_witness :
    axsCxOut.reg_x = wsub8 (axsCx.reg_a &&& axsCx.reg_x)
      (axsCx.mem.read axsCx.pc) ∧
    getFlag axsCxOut.status flagCarry =
      decide (axsCx.reg_a &&& axsCx.reg_x < axsCx.mem.read axsCx.pc) ∧
    getFlag axsCxOut.status flagZero = (axsCxOut.reg_x == 0) ∧
    getFlag axsCxOut.status flagNegative = axsCxOut.reg_x.testBit 7 :=
  axs_spec axsCx axsCxOut (by constructor <;> decide) rfl

/-! ## C4 — NMI edge detection in `PPU::write_to_ctrl` -/

/-- C4: the code detects a FALLING edge of `GENERATE_NMI`, not the
rising edge the claim describes.  (1) whenever the latched ctrl has the
NMI bit clear — in particular on the claim's rising edge — `nmi_pending`
is left unchanged; (2) at the claim's concrete rising-edge input
(`ctrl = 0`, VBlank set, write `0x80`) `nmi_pending` stays `false`;
(3) the opposite (falling) edge does set it. -/
theorem write_to_ctrl_edge_inverted :
    (∀ (p : PPU) (v : Nat), bitsContain p.ctrl GENERATE_NMI = false →
      (p.writeToCtrl v).nmi_pending = p.nmi_pending) ∧
    (ppuVb.writeToCtrl 0x80).nmi_pending = false ∧
    (({ ppuVb with ctrl := 0x80 } : PPU).writeToCtrl 0x00).nmi_pending = true := by
  refine ⟨fun p v h => ?_, rfl, rfl⟩
  simp [PPU.writeToCtrl, h]

/-- Witness for C4's universal part at the concrete rising-edge input. -/
theorem write_to_ctrl_edge_inverted_witness :
    (ppuVb.writeToCtrl 0x80).nmi_pending = ppuVb.nmi_pending :=
  write_to_ctrl_edge_inverted.1 ppuVb 0x80 rfl

/-! ## C3 — reading PPUSTATUS (`$2002`) through the bus -/

/-- `addr & 0x2007` on the PPU register window. -/
lemma and_2007 (a : Nat) (h1 : 0x2000 ≤ a) (h2 : a < 0x4000) :
    a &&& 0x2007 = 0x2000 + a % 8 := by
  obtain ⟨b, hb, rfl⟩ : ∃ b, b < 2 ^ 13 ∧ a = 2 ^ 13 * 1 + b :=
    ⟨a - 0x2000, by omega, by omega⟩
  have hmod : (2 ^ 13 * 1 + b) % 8 = b % 8 := by omega
  have hb8 : b % 8 < 2 ^ 13 := by omega
  apply Nat.eq_of_testBit_eq
  intro j
  rw [Nat.testBit_and, hmod,
    show (0x2000 : Nat) + b % 8 = 2 ^ 13 * 1 + b % 8 by omega,
    Nat.testBit_mul_pow_two_add _ hb j, Nat.testBit_mul_pow_two_add _ hb8 j,
    show (8 : Nat) = 2 ^ 3 from rfl]
  rcases Nat.lt_or_ge j 13 with hj | hj
  · rw [if_pos hj, if_pos hj, Nat.testBit_mod_two_pow]
    rcases Nat.lt_or_ge j 3 with hj3 | hj3
    · have ht : Nat.testBit 0x2007 j = true := by interval_cases j <;> decide
      simp [ht, hj3]
    · have ht : Nat.testBit 0x2007 j = false := by interval_cases j <;> decide
      simp [ht, show ¬ (j < 3) by omega]
  · rw [if_neg (by omega), if_neg (by omega)]
    rcases Nat.eq_or_lt_of_le hj with rfl | hj'
    · decide
    · have hx : Nat.testBit 1 (j - 13) = false :=
        Nat.testBit_lt_two_pow (by
          calc (1 : Nat) < 2 ^ 1 := by decide
            _ ≤ 2 ^ (j - 13) := Nat.pow_le_pow_right (by omega) (by omega))
      have ht : Nat.testBit 0x2007 j = false :=
        Nat.testBit_lt_two_pow (by
          calc (0x2007 : Nat) < 2 ^ 14 := by decide
            _ ≤ 2 ^ j := Nat.pow_le_pow_right (by omega) (by omega))
      simp [hx, ht]

/-- C3: on every bus that HAS a PPU, reading `$2002` or any of its
every-8-byte mirrors up to `$3FFF` is a fatal error (the dispatch falls
into the `PPU register read not implemented` panic arm; `read_status`
is never reached), contradicting the claim that the read returns the
status bits non-fatally. -/
theorem ppustatus_read_is_fatal (b : Bus) (p : PPU) (addr : Nat)
    (hp : b.ppu = some p) (h1 : 0x2000 ≤ addr) (h2 : addr ≤ 0x3FFF)
    (h3 : addr % 8 = 2) :
    isErr (b.memReadU8 addr) = true := by
  have hm : addr &&& 0b0010000000000111 = 0x2002 := by
    rw [and_2007 addr h1 (by omega), h3]
  simp only [Bus.memReadU8, hp, hm]
  rw [if_neg (by omega), if_pos (by omega)]
  simp [isErr]

/-- Witness for C3: a concrete bus with a PPU, read at `$2002`. -/
theorem ppustatus_read_is_fatal_witness :
    isErr ((Bus.new.insertRom (Rom.mk [] [] 0 .Horizontal)).memReadU8 0x2002) =
      true :=
  ppustatus_read_is_fatal _ _ 0x2002 rfl (by decide) (by decide) (by decide)

/-! ## C10 — the memory map of a freshly constructed bus -/

/-- C10: on `Bus::new` (no cartridge, hence no PPU), every read in
`$2000`–`$3FFF` and `$8000`–`$FFFF` is a fatal error, while
`$4000`–`$7FFF` reads back 0. -/
theorem bus_new_read_map :
    (∀ addr : Nat, 0x2000 ≤ addr → addr ≤ 0x3FFF →
      isErr (Bus.new.memReadU8 addr) = true) ∧
    (∀ addr : Nat, 0x8000 ≤ addr → addr ≤ 0xFFFF →
      isErr (Bus.new.memReadU8 addr) = true) ∧
    (∀ addr : Nat, 0x4000 ≤ addr → addr ≤ 0x7FFF →
      Bus.new.memReadU8 addr = .ok (0, Bus.new)) := by
  refine ⟨fun a h1 h2 => ?_, fun a h1 h2 => ?_, fun a h1 h2 => ?_⟩ <;>
    simp only [Bus.memReadU8]
  · rw [if_neg (by omega), if_pos (by omega)]
    simp [Bus.new, isErr]
  · rw [if_neg (by omega), if_neg (by omega), if_pos (by omega)]
    simp [Bus.new, Bus.readPrgRom, isErr]
  · rw [if_neg (by omega), if_neg (by omega), if_neg (by omega)]

/-- Witness for C10 at one concrete address per range. -/
theorem bus_new_read_map_witness :
    isErr (Bus.new.memReadU8 0x2002) = true ∧
    isErr (Bus.new.memReadU8 0xFFFC) = true ∧
    Bus.new.memReadU8 0x4000 = .ok (0, Bus.new) :=
  ⟨bus_new_read_map.1 0x2002 (by decide) (by decide),
   bus_new_read_map.2.1 0xFFFC (by decide) (by decide),
   bus_new_read_map.2.2 0x4000 (by decide) (by decide)⟩

/-! ## C5 — the iNES header parser -/

/-- C5, counterexample: (1) byte 6 bit 0 set does NOT give vertical
mirroring (the flags are read from byte 7); (2) nonzero lower bits of
byte 7 are NOT rejected; (3) bit 2 of byte 6 is NOT the trainer flag —
it trips the iNES-version check instead. -/
theorem rom_new_counterexample :
    ((Rom.new rawByte6V).toOption.map fun r => r.screen_mirroring) =
      some Mirroring.Horizontal ∧
    isErr (Rom.new rawByte7Low) = false ∧
    isErr (Rom.new rawByte6T) = true := by decide

/-- C5 (amended): on a well-formed image, `Rom::new` requires bits 2..3
of header byte 6 to be zero (error otherwise), takes the vertical-mirror
flag (bit 0), the trainer-present flag (bit 2) and the four-screen flag
(bit 3) from header byte 7, the mapper low nibble from byte 6 bits 4..7
and the mapper high nibble from byte 7 bits 4..7. -/
theorem rom_new_spec (raw : List Nat) (_hlen : 16 ≤ raw.length)
    (htag : raw.take 4 = NES_TAG) :
    (raw.getD 6 0 &&& 0b00001100 ≠ 0 →
      Rom.new raw = .error "Only iNES 1.0 file format is supported") ∧
    (raw.getD 6 0 &&& 0b00001100 = 0 → ∃ r, Rom.new raw = .ok r ∧
      r.mapper = (raw.getD 7 0 &&& 0b11110000) ||| (raw.getD 6 0 >>> 4) ∧
      r.screen_mirroring =
        (if raw.getD 7 0 &&& 0b00001000 != 0 then Mirroring.FourScreen
         else if raw.getD 7 0 &&& 0b00000001 != 0 then Mirroring.Vertical
         else Mirroring.Horizontal) ∧
      r.prg_rom = (raw.drop
          (16 + if raw.getD 7 0 &&& 0b00000100 != 0 then 512 else 0)).take
        (raw.getD 4 0 * PRG_ROM_PAGE_SIZE)) := by
  constructor
  · intro h
    rw [Rom.new, if_neg (by simp [htag]), if_pos h]
  · intro h
    have heq : Rom.new raw = .ok
        { prg_rom := (raw.drop
              (16 + if raw.getD 7 0 &&& 0b00000100 != 0 then 512 else 0)).take
            (raw.getD 4 0 * PRG_ROM_PAGE_SIZE)
          chr_rom := (raw.drop
              ((16 + if raw.getD 7 0 &&& 0b00000100 != 0 then 512 else 0) +
                raw.getD 4 0 * PRG_ROM_PAGE_SIZE)).take
            (raw.getD 5 0 * CHR_ROM_PAGE_SIZE)
          mapper := (raw.getD 7 0 &&& 0b11110000) ||| (raw.getD 6 0 >>> 4)
          screen_mirroring :=
            if raw.getD 7 0 &&& 0b00001000 != 0 then Mirroring.FourScreen
            else if raw.getD 7 0 &&& 0b00000001 != 0 then Mirroring.Vertical
            else Mirroring.Horizontal } := by
      rw [Rom.new, if_neg (by simp [htag]), if_neg (not_ne_iff.mpr h)]
    exact ⟨_, heq, rfl, rfl, rfl⟩

/-- Witness for C5 at the concrete image `rawByte6V`. -/
theorem rom_new_spec_witness :
    (rawByte6V.getD 6 0 &&& 0b00001100 ≠ 0 →
      Rom.new rawByte6V = .error "Only iNES 1.0 file format is supported") ∧
    (rawByte6V.getD 6 0 &&& 0b00001100 = 0 → ∃ r, Rom.new rawByte6V = .ok r ∧
      r.mapper = (rawByte6V.getD 7 0 &&& 0b11110000) |||
        (rawByte6V.getD 6 0 >>> 4) ∧
      r.screen_mirroring =
        (if rawByte6V.getD 7 0 &&& 0b00001000 != 0 then Mirroring.FourScreen
         else if rawByte6V.getD 7 0 &&& 0b00000001 != 0 then Mirroring.Vertical
         else Mirroring.Horizontal) ∧
      r.prg_rom = (rawByte6V.drop
          (16 + if rawByte6V.getD 7 0 &&& 0b00000100 != 0 then 512 else 0)).take
        (rawByte6V.getD 4 0 * PRG_ROM_PAGE_SIZE)) :=
  rom_new_spec rawByte6V (by decide) (by decide)

/-! ## C9 — the indirect-JMP page-boundary bug -/

/-- C9: indirect address resolution replicates the 6502 page-boundary
bug — when the pointer operand ends in `$FF` the high byte of the
target is read at `ptr & $FF00` (not `ptr + 1`) — and on the claim's
concrete program the JMP therefore lands at `$1234` (not `$5634`). -/
theorem jmp_indirect_page_bug :
    (∀ (s : CPUState) (addr : Nat) (s1 : CPUState),
      getAddress .Indirect s = some (addr, s1) →
      (s.mem.read16 s.pc) % 256 = 0xFF →
      addr = ((s.mem.read ((s.mem.read16 s.pc) &&& 0xFF00)) <<< 8) |||
        s.mem.read (s.mem.read16 s.pc)) ∧
    ((step jmpBugCpu).map fun s => s.pc) = some 0x1234 := by
  constructor
  · intro s addr s1 h hmod
    simp only [getAddress, CPUState.readPcU16, Option.some.injEq,
      Prod.mk.injEq] at h
    obtain ⟨ha, -⟩ := h
    subst ha
    rw [show wrap8 (wrap8 (s.mem.read16 s.pc) + 1) = 0 by
      rw [wrap8, wrap8, hmod], Nat.or_zero]
  · rfl

/-- Witness for C9: the page-boundary formula applied to the concrete
scenario state. -/
theorem jmp_indirect_page_bug_witness :
    ((getAddress .Indirect
        ({ jmpBugCpu with pc := 0x0601 } : CPUState)).getD (0, cpu0)).1 =
      ((Mem.read jmpBugMem ((Mem.read16 jmpBugMem 0x0601) &&& 0xFF00)) <<< 8) |||
        Mem.read jmpBugMem (Mem.read16 jmpBugMem 0x0601) :=
  jmp_indirect_page_bug.1 { jmpBugCpu with pc := 0x0601 } _ _ rfl (by decide)

/-! ## C8 — JSR/RTS round trip -/

lemma decode_jsr : decode 0x20 = some ⟨0x20, "JSR", jsr, .Absolute, 3, 6⟩ := rfl

lemma decode_rts :
    decode 0x60 = some ⟨0x60, "RTS", rts, .NoneAddressing, 1, 6⟩ := rfl

/-- `jsr` in `Absolute` mode, written out. -/
lemma jsr_eq (s : CPUState) :
    jsr .Absolute s = some
      { CPUState.pushU16 { s with pc := wrap16 (s.pc + 2) }
          (wrap16 (wrap16 (s.pc + 2) + 65535)) with pc := s.mem.read16 s.pc } :=
  rfl

/-- `rts`, written out. -/
lemma rts_eq (m : AddressingMode) (s : CPUState) :
    rts m s = some
      { s with
        stack := wrap8 (wrap8 (s.stack + 1) + 1)
        pc := wrap16
          ((((s.mem.read (0x0100 ||| wrap8 (wrap8 (s.stack + 1) + 1))) <<< 8) |||
            s.mem.read (0x0100 ||| wrap8 (s.stack + 1))) + 1) } := rfl

/-- `stack_push_value_u16`, written out. -/
lemma pushU16_eq (s : CPUState) (v : Nat) :
    s.pushU16 v = { s with
      stack := wrap8 (wrap8 (s.stack + 255) + 255)
      mem := (s.mem.write (0x0100 ||| s.stack) (wrap8 (v >>> 8))).write
        (0x0100 ||| wrap8 (s.stack + 255)) (wrap8 v) } := rfl

lemma or256 (x : Nat) (hx : x < 256) : 0x0100 ||| x = 0x0100 + x := by
  have h := Nat.mul_add_lt_is_or (i := 8) (show x < 2 ^ 8 by omega) 1
  simpa using h.symm

/-- Recomposing the two little-endian bytes of a 16-bit value. -/
lemma le_bytes_roundtrip (v : Nat) (hv : v < 65536) :
    ((wrap8 (v >>> 8)) <<< 8) ||| wrap8 v = v := by
  have h1 : v >>> 8 = v / 256 := by
    rw [Nat.shiftRight_eq_div_pow]
  rw [h1, wrap8_eq_of_lt (show v / 256 < 256 by omega), Nat.shiftLeft_eq,
    wrap8, Nat.mul_comm (v / 256) (2 ^ 8),
    ← Nat.mul_add_lt_is_or (show v % 256 < 2 ^ 8 by omega) (v / 256)]
  omega

/-- Reduce `step` to the decoded handler. -/
lemma step_eq (s : CPUState) (e : OpEntry)
    (hd : decode (s.mem.read s.pc) = some e) :
    step s = e.op e.mode { s with pc := wrap16 (s.pc + 1) } := by
  simp only [step, CPUState.readPcU8, hd]

/-- C8: executing the JSR at PC (opcode `$20`) and later an RTS
(opcode `$60`) from any state whose stack pointer and the two stack
bytes the JSR wrote are unchanged, leaves PC at the address just past
the JSR's two operand bytes and restores the pre-JSR stack pointer. -/
theorem jsr_rts_round_trip
    (s s1 : CPUState) (hwf : s.Wf) (hop : s.mem.read s.pc = 0x20)
    (h1 : step s = some s1) (s2 : CPUState) (hstk : s2.stack = s1.stack)
    (hm1 : s2.mem.read (0x0100 ||| wrap8 (s1.stack + 1)) =
      s1.mem.read (0x0100 ||| wrap8 (s1.stack + 1)))
    (hm2 : s2.mem.read (0x0100 ||| wrap8 (s1.stack + 2)) =
      s1.mem.read (0x0100 ||| wrap8 (s1.stack + 2)))
    (hop2 : s2.mem.read s2.pc = 0x60)
    (s3 : CPUState) (h3 : step s2 = some s3) :
    s3.pc = wrap16 (s.pc + 3) ∧ s3.stack = s.stack := by
  obtain ⟨hpc, -, hsk, -, -, -⟩ := hwf
  -- run the JSR step
  rw [step_eq s _ (by rw [hop]; try exact decode_jsr)] at h1
  replace h1 : jsr .Absolute { s with pc := wrap16 (s.pc + 1) } = some s1 := h1
  rw [jsr_eq, pushU16_eq, Option.some.injEq] at h1
  have e2 : wrap16 (wrap16 (wrap16 (s.pc + 1) + 2) + 65535) =
      wrap16 (s.pc + 2) := by
    simp only [wrap16]; omega
  have hstk1 : s1.stack = wrap8 (wrap8 (s.stack + 255) + 255) := by
    rw [← h1]
  have hmem1 : s1.mem =
      (s.mem.write (0x0100 ||| s.stack)
        (wrap8 (wrap16 (wrap16 (wrap16 (s.pc + 1) + 2) + 65535) >>> 8))).write
      (0x0100 ||| wrap8 (s.stack + 255))
      (wrap8 (wrap16 (wrap16 (wrap16 (s.pc + 1) + 2) + 65535))) := by
    rw [← h1]
  rw [e2] at hmem1
  -- the two pushed bytes, read back from the two stack addresses
  have f1 : wrap8 (wrap8 (wrap8 (s.stack + 255) + 255) + 1) =
      wrap8 (s.stack + 255) := by
    simp only [wrap8]; omega
  have f2 : wrap8 (wrap8 (wrap8 (s.stack + 255) + 255) + 2) = s.stack := by
    simp only [wrap8]; omega
  have hne : wrap16 (0x0100 ||| wrap8 (s.stack + 255)) ≠
      wrap16 (0x0100 ||| s.stack) := by
    rw [or256 _ (wrap8_lt _), or256 _ hsk,
      wrap16_eq_of_lt (by have := wrap8_lt (s.stack + 255); omega),
      wrap16_eq_of_lt (by omega)]
    simp only [wrap8]; omega
  have w8v : wrap8 (wrap8 (wrap16 (s.pc + 2))) = wrap8 (wrap16 (s.pc + 2)) :=
    wrap8_eq_of_lt (wrap8_lt _)
  have w8h : wrap8 (wrap8 (wrap16 (s.pc + 2) >>> 8)) =
      wrap8 (wrap16 (s.pc + 2) >>> 8) :=
    wrap8_eq_of_lt (wrap8_lt _)
  have hlo : s1.mem.read (0x0100 ||| wrap8 (s1.stack + 1)) =
      wrap8 (wrap16 (s.pc + 2)) := by
    rw [hmem1, hstk1, f1, Mem.read_write_same _ _ _ _ rfl, w8v]
  have hhi : s1.mem.read (0x0100 ||| wrap8 (s1.stack + 2)) =
      wrap8 (wrap16 (s.pc + 2) >>> 8) := by
    rw [hmem1, hstk1, f2, Mem.read_write_other _ _ _ _ hne,
      Mem.read_write_same _ _ _ _ rfl, w8h]
  -- run the RTS step
  rw [step_eq s2 _ (by rw [hop2]; try exact decode_rts)] at h3
  replace h3 : rts .NoneAddressing { s2 with pc := wrap16 (s2.pc + 1) } =
    some s3 := h3
  rw [rts_eq, Option.some.injEq] at h3
  have hstk3 : s3.stack = wrap8 (wrap8 (s2.stack + 1) + 1) := by
    rw [← h3]
  have hpc3 : s3.pc = wrap16
      ((((s2.mem.read (0x0100 ||| wrap8 (wrap8 (s2.stack + 1) + 1))) <<< 8) |||
        s2.mem.read (0x0100 ||| wrap8 (s2.stack + 1))) + 1) := by
    rw [← h3]
  have g1 : wrap8 (wrap8 (s2.stack + 1) + 1) = wrap8 (s2.stack + 2) := by
    simp only [wrap8]; omega
  rw [g1, hstk, hm1, hm2, hlo, hhi,
    le_bytes_roundtrip _ (wrap16_lt _)] at hpc3
  constructor
  · rw [hpc3]
    simp only [wrap16]; omega
  · rw [hstk3, g1, hstk, hstk1]
    simp only [wrap8]; omega

/-- Witness for C8 on the spec's concrete subroutine scenario. -/
theorem jsr_rts_round_trip_witness :
    jsrCpu3.pc = wrap16 (jsrCpu.pc + 3) ∧ jsrCpu3.stack = jsrCpu.stack :=
  jsr_rts_round_trip jsrCpu jsrCpu1
    ⟨by decide, by decide, by decide, by decide, by decide, by decide⟩
    (by decide) rfl jsrCpu1 rfl rfl rfl (by decide) jsrCpu3 rfl

/-! ## C7 — Zero/Negative flags versus instruction results -/

lemma ZNfrom_updateZN (st r : Nat) : ZNfrom (updateZN st r) r :=
  ⟨getFlag_updateZN_zero _ _, getFlag_updateZN_neg _ _⟩

lemma ZNfrom_setFlag_carry (st r : Nat) (b : Bool) (h : ZNfrom st r) :
    ZNfrom (setFlag st flagCarry b) r := by
  obtain ⟨hz, hn⟩ := h
  constructor
  · rw [show flagZero = 2 ^ 1 from rfl, show flagCarry = 2 ^ 0 from rfl,
      getFlag_setFlag_other st b 0 1 (by omega) (by omega) (by omega)]
    exact hz
  · rw [show flagNegative = 2 ^ 7 from rfl, show flagCarry = 2 ^ 0 from rfl,
      getFlag_setFlag_other st b 0 7 (by omega) (by omega) (by omega)]
    exact hn

lemma ZNfrom_setFlag_overflow (st r : Nat) (b : Bool) (h : ZNfrom st r) :
    ZNfrom (setFlag st flagOverflow b) r := by
  obtain ⟨hz, hn⟩ := h
  constructor
  · rw [show flagZero = 2 ^ 1 from rfl, show flagOverflow = 2 ^ 6 from rfl,
      getFlag_setFlag_other st b 6 1 (by omega) (by omega) (by omega)]
    exact hz
  · rw [show flagNegative = 2 ^ 7 from rfl, show flagOverflow = 2 ^ 6 from rfl,
      getFlag_setFlag_other st b 6 7 (by omega) (by omega) (by omega)]
    exact hn

lemma shiftRight_one_lt (x : Nat) (hx : x < 256) : x >>> 1 < 128 := by
  rw [Nat.shiftRight_eq_div_pow, pow_one]
  omega

lemma shiftLeft_one_wrap_le (x : Nat) : wrap8 (x <<< 1) ≤ 254 := by
  rw [wrap8, Nat.shiftLeft_eq, pow_one]
  omega

/-- C7, counterexample: this DCP stores `3` (nonzero) to memory and
leaves A at `3` (nonzero), yet the Zero flag comes out set — DCP's Z/N
come from the comparison of A with the decremented value, not from any
written 8-bit result. -/
theorem dcp_zero_flag_counterexample :
    ((dcp .ZeroPage dcpCx).map fun s =>
      (getFlag s.status flagZero, s.mem.read 0x10, s.reg_a)) =
      some (true, 3, 3) := by decide

/-- C7 (amended): every instruction that writes an 8-bit result to A,
X, Y, or memory — other than the pure stores STA/STX/STY/SAX/PHA/PHP
and TXS — sets Zero to (result == 0) and Negative to bit 7 of the
result, where the RMW combos SLO/RLA/SRE/RRA/ISB take the new A as the
governing result; DCP is the exception: it stores the decremented value
but sets C/Z/N from the CMP-style comparison of A with that value. -/
theorem flags_zn_spec :
    ZNreg lda (fun s => s.reg_a) ∧ ZNreg ldx (fun s => s.reg_x) ∧
    ZNreg ldy (fun s => s.reg_y) ∧ ZNreg lax (fun s => s.reg_a) ∧
    ZNreg tax (fun s => s.reg_x) ∧ ZNreg tay (fun s => s.reg_y) ∧
    ZNreg tsx (fun s => s.reg_x) ∧ ZNreg txa (fun s => s.reg_a) ∧
    ZNreg tya (fun s => s.reg_a) ∧ ZNreg adc (fun s => s.reg_a) ∧
    ZNreg sbc (fun s => s.reg_a) ∧ ZNreg and' (fun s => s.reg_a) ∧
    ZNreg eor (fun s => s.reg_a) ∧ ZNreg ora (fun s => s.reg_a) ∧
    ZNreg inx (fun s => s.reg_x) ∧ ZNreg iny (fun s => s.reg_y) ∧
    ZNreg dex (fun s => s.reg_x) ∧ ZNreg dey (fun s => s.reg_y) ∧
    ZNreg pla (fun s => s.reg_a) ∧ ZNreg slo (fun s => s.reg_a) ∧
    ZNreg rla (fun s => s.reg_a) ∧ ZNreg sre (fun s => s.reg_a) ∧
    ZNreg rra (fun s => s.reg_a) ∧ ZNreg isc (fun s => s.reg_a) ∧
    ZNreg alr (fun s => s.reg_a) ∧ ZNreg anc (fun s => s.reg_a) ∧
    ZNreg arr (fun s => s.reg_a) ∧ ZNreg axs (fun s => s.reg_x) ∧
    ZNacc asl ∧ ZNacc lsr ∧ ZNacc rol ∧ ZNacc ror ∧
    ZNmem asl ∧ ZNmem lsr ∧ ZNmem rol ∧ ZNmem ror ∧
    ZNmem inc ∧ ZNmem dec ∧
    (∀ (mode : AddressingMode) (s : CPUState) (addr : Nat) (s1 s' : CPUState),
      getAddress mode s = some (addr, s1) → dcp mode s = some s' →
      s'.mem.read addr = wsub8 (s1.mem.read addr) 1 ∧
      getFlag s'.status flagZero = (s1.reg_a == wsub8 (s1.mem.read addr) 1) ∧
      getFlag s'.status flagNegative =
        (wsub8 s1.reg_a (wsub8 (s1.mem.read addr) 1)).testBit 7 ∧
      getFlag s'.status flagCarry =
        decide (wsub8 (s1.mem.read addr) 1 ≤ s1.reg_a)) := by
  have hlda : ZNreg lda (fun s => s.reg_a) := by
    intro m s s' h
    cases hga : getAddress m s with
    | none => simp [lda, hga] at h
    | some p =>
      obtain ⟨addr, s1⟩ := p
      simp only [lda, hga, Option.some.injEq] at h
      subst h
      exact ZNfrom_updateZN _ _
  have hldx : ZNreg ldx (fun s => s.reg_x) := by
    intro m s s' h
    cases hga : getAddress m s with
    | none => simp [ldx, hga] at h
    | some p =>
      obtain ⟨addr, s1⟩ := p
      simp only [ldx, hga, Option.some.injEq] at h
      subst h
      exact ZNfrom_updateZN _ _
  have hldy : ZNreg ldy (fun s => s.reg_y) := by
    intro m s s' h
    cases hga : getAddress m s with
    | none => simp [ldy, hga] at h
    | some p =>
      obtain ⟨addr, s1⟩ := p
      simp only [ldy, hga, Option.some.injEq] at h
      subst h
      exact ZNfrom_updateZN _ _
  have hlax : ZNreg lax (fun s => s.reg_a) := by
    intro m s s' h
    cases hga : getAddress m s with
    | none => simp [lax, hga] at h
    | some p =>
      obtain ⟨addr, s1⟩ := p
      simp only [lax, hga, Option.some.injEq] at h
      subst h
      exact ZNfrom_updateZN _ _
  have htax : ZNreg tax (fun s => s.reg_x) := by
    intro m s s' h
    simp only [tax, Option.some.injEq] at h
    subst h
    exact ZNfrom_updateZN _ _
  have htay : ZNreg tay (fun s => s.reg_y) := by
    intro m s s' h
    simp only [tay, Option.some.injEq] at h
    subst h
    exact ZNfrom_updateZN _ _
  have htsx : ZNreg tsx (fun s => s.reg_x) := by
    intro m s s' h
    simp only [tsx, Option.some.injEq] at h
    subst h
    exact ZNfrom_updateZN _ _
  have htxa : ZNreg txa (fun s => s.reg_a) := by
    intro m s s' h
    simp only [txa, Option.some.injEq] at h
    subst h
    exact ZNfrom_updateZN _ _
  have htya : ZNreg tya (fun s => s.reg_a) := by
    intro m s s' h
    simp only [tya, Option.some.injEq] at h
    subst h
    exact ZNfrom_updateZN _ _
  have hadc : ZNreg adc (fun s => s.reg_a) := by
    intro m s s' h
    cases hga : getAddressAndValue m s with
    | none => simp [adc, hga] at h
    | some p =>
      obtain ⟨addr, v, s1⟩ := p
      simp only [adc, hga, Option.some.injEq] at h
      subst h
      exact ZNfrom_updateZN _ _
  have hsbc : ZNreg sbc (fun s => s.reg_a) := by
    intro m s s' h
    cases hga : getAddressAndValue m s with
    | none => simp [sbc, hga] at h
    | some p =>
      obtain ⟨addr, v, s1⟩ := p
      simp only [sbc, hga, Option.some.injEq] at h
      subst h
      exact ZNfrom_updateZN _ _
  have hand : ZNreg and' (fun s => s.reg_a) := by
    intro m s s' h
    cases hga : getAddress m s with
    | none => simp [and', hga] at h
    | some p =>
      obtain ⟨addr, s1⟩ := p
      simp only [and', hga, Option.some.injEq] at h
      subst h
      exact ZNfrom_updateZN _ _
  have heor : ZNreg eor (fun s => s.reg_a) := by
    intro m s s' h
    cases hga : getAddress m s with
    | none => simp [eor, hga] at h
    | some p =>
      obtain ⟨addr, s1⟩ := p
      simp only [eor, hga, Option.some.injEq] at h
      subst h
      exact ZNfrom_updateZN _ _
  have hora : ZNreg ora (fun s => s.reg_a) := by
    intro m s s' h
    cases hga : getAddress m s with
    | none => simp [ora, hga] at h
    | some p =>
      obtain ⟨addr, s1⟩ := p
      simp only [ora, hga, Option.some.injEq] at h
      subst h
      exact ZNfrom_updateZN _ _
  have hinx : ZNreg inx (fun s => s.reg_x) := by
    intro m s s' h
    simp only [inx, Option.some.injEq] at h
    subst h
    exact ZNfrom_updateZN _ _
  have hiny : ZNreg iny (fun s => s.reg_y) := by
    intro m s s' h
    simp only [iny, Option.some.injEq] at h
    subst h
    exact ZNfrom_updateZN _ _
  have hdex : ZNreg dex (fun s => s.reg_x) := by
    intro m s s' h
    simp only [dex, Option.some.injEq] at h
    subst h
    exact ZNfrom_updateZN _ _
  have hdey : ZNreg dey (fun s => s.reg_y) := by
    intro m s s' h
    simp only [dey, Option.some.injEq] at h
    subst h
    exact ZNfrom_updateZN _ _
  have hpla : ZNreg pla (fun s => s.reg_a) := by
    intro m s s' h
    simp only [pla, CPUState.pullU8, Option.some.injEq] at h
    subst h
    exact ZNfrom_updateZN _ _
  have hslo : ZNreg slo (fun s => s.reg_a) := by
    intro m s s' h
    cases hga : getAddress m s with
    | none => simp [slo, hga] at h
    | some p =>
      obtain ⟨addr, s1⟩ := p
      simp only [slo, hga, Option.some.injEq] at h
      subst h
      exact ZNfrom_updateZN _ _
  have hrla : ZNreg rla (fun s => s.reg_a) := by
    intro m s s' h
    cases hga : getAddress m s with
    | none => simp [rla, hga] at h
    | some p =>
      obtain ⟨addr, s1⟩ := p
      simp only [rla, hga, Option.some.injEq] at h
      subst h
      exact ZNfrom_updateZN _ _
  have hsre : ZNreg sre (fun s => s.reg_a) := by
    intro m s s' h
    cases hga : getAddress m s with
    | none => simp [sre, hga] at h
    | some p =>
      obtain ⟨addr, s1⟩ := p
      simp only [sre, hga, Option.some.injEq] at h
      subst h
      exact ZNfrom_updateZN _ _
  have hrra : ZNreg rra (fun s => s.reg_a) := by
    intro m s s' h
    cases hga : getAddress m s with
    | none => simp [rra, hga] at h
    | some p =>
      obtain ⟨addr, s1⟩ := p
      simp only [rra, hga, Option.some.injEq] at h
      subst h
      exact ZNfrom_updateZN _ _
  have hisc : ZNreg isc (fun s => s.reg_a) := by
    intro m s s' h
    cases hga : getAddress m s with
    | none => simp [isc, hga] at h
    | some p =>
      obtain ⟨addr, s1⟩ := p
      simp only [isc, hga, Option.some.injEq] at h
      subst h
      exact ZNfrom_updateZN _ _
  have hlsracc : ZNacc lsr := by
    intro s s' h
    simp only [lsr, resolveValueAndAddress, reduceIte, writeShiftResult,
      Option.some.injEq] at h
    subst h
    exact ZNfrom_updateZN _ _
  have haslacc : ZNacc asl := by
    intro s s' h
    simp only [asl, resolveValueAndAddress, reduceIte, writeShiftResult,
      Option.some.injEq] at h
    subst h
    exact ZNfrom_updateZN _ _
  have hrolacc : ZNacc rol := by
    intro s s' h
    simp only [rol, resolveValueAndAddress, reduceIte, writeShiftResult,
      Option.some.injEq] at h
    subst h
    exact ZNfrom_updateZN _ _
  have hroracc : ZNacc ror := by
    intro s s' h
    simp only [ror, resolveValueAndAddress, reduceIte, writeShiftResult,
      Option.some.injEq] at h
    subst h
    exact ZNfrom_updateZN _ _
  have halr : ZNreg alr (fun s => s.reg_a) := by
    intro m s s' h
    cases han : and' m s with
    | none => simp [alr, han] at h
    | some s1 =>
      simp only [alr, han] at h
      exact hlsracc s1 s' h
  have hanc : ZNreg anc (fun s => s.reg_a) := by
    intro m s s' h
    cases han : and' m s with
    | none => simp [anc, han] at h
    | some s1 =>
      have hzn := hand m s s1 han
      simp only [anc, han, Option.some.injEq] at h
      subst h
      exact ZNfrom_setFlag_carry _ _ _ hzn
  have harr : ZNreg arr (fun s => s.reg_a) := by
    intro m s s' h
    cases han : and' m s with
    | none => simp [arr, han] at h
    | some s1 =>
      simp only [arr, han] at h
      cases hr : ror .Accumulator s1 with
      | none => simp [hr] at h
      | some s2 =>
        have hzn := hroracc s1 s2 hr
        simp only [hr, Option.some.injEq] at h
        subst h
        cases hb5 : (s1.reg_a &&& 1 <<< 5 != 0) <;>
          cases hb6 : (s1.reg_a &&& 1 <<< 6 != 0) <;>
          simp only [hb5, hb6] <;>
          exact ZNfrom_setFlag_overflow _ _ _ (ZNfrom_setFlag_carry _ _ _ hzn)
  have haxs : ZNreg axs (fun s => s.reg_x) := by
    intro m s s' h
    cases hga : getAddress m s with
    | none => simp [axs, hga] at h
    | some p =>
      obtain ⟨addr, s1⟩ := p
      simp only [axs, hga, Option.some.injEq] at h
      subst h
      exact ZNfrom_updateZN _ _
  have haslmem : ZNmem asl := by
    intro m s addr s1 s' hm hga h
    simp only [asl, resolveValueAndAddress, if_neg hm, hga, writeShiftResult,
      Option.some.injEq] at h
    subst h
    show ZNfrom _ (Mem.read _ addr)
    rw [Mem.read_write_same _ _ _ _ rfl, wrap8_eq_of_lt (wrap8_lt _)]
    exact ZNfrom_updateZN _ _
  have hlsrmem : ZNmem lsr := by
    intro m s addr s1 s' hm hga h
    simp only [lsr, resolveValueAndAddress, if_neg hm, hga, writeShiftResult,
      Option.some.injEq] at h
    subst h
    have hres : s1.mem.read addr >>> 1 < 256 := by
      have := shiftRight_one_lt _ (Mem.read_lt s1.mem addr)
      omega
    show ZNfrom _ (Mem.read _ addr)
    rw [Mem.read_write_same _ _ _ _ rfl, wrap8_eq_of_lt hres]
    exact ZNfrom_updateZN _ _
  have hrolmem : ZNmem rol := by
    intro m s addr s1 s' hm hga h
    simp only [rol, resolveValueAndAddress, if_neg hm, hga, writeShiftResult,
      Option.some.injEq] at h
    subst h
    have hres : (if getFlag s1.status flagCarry then
        wrap8 (s1.mem.read addr <<< 1) + 1 else
        wrap8 (s1.mem.read addr <<< 1)) < 256 := by
      have := shiftLeft_one_wrap_le (s1.mem.read addr)
      split <;> omega
    show ZNfrom _ (Mem.read _ addr)
    rw [Mem.read_write_same _ _ _ _ rfl, wrap8_eq_of_lt hres]
    exact ZNfrom_updateZN _ _
  have hrormem : ZNmem ror := by
    intro m s addr s1 s' hm hga h
    simp only [ror, resolveValueAndAddress, if_neg hm, hga, writeShiftResult,
      Option.some.injEq] at h
    subst h
    have hres : (if getFlag s1.status flagCarry then
        s1.mem.read addr >>> 1 + 128 else s1.mem.read addr >>> 1) < 256 := by
      have := shiftRight_one_lt _ (Mem.read_lt s1.mem addr)
      split <;> omega
    show ZNfrom _ (Mem.read _ addr)
    rw [Mem.read_write_same _ _ _ _ rfl, wrap8_eq_of_lt hres]
    exact ZNfrom_updateZN _ _
  have hincmem : ZNmem inc := by
    intro m s addr s1 s' hm hga h
    simp only [inc, hga, Option.some.injEq] at h
    subst h
    show ZNfrom _ (Mem.read _ addr)
    rw [Mem.read_write_same _ _ _ _ rfl, wrap8_eq_of_lt (wrap8_lt _)]
    exact ZNfrom_updateZN _ _
  have hdecmem : ZNmem dec := by
    intro m s addr s1 s' hm hga h
    simp only [dec, hga, Option.some.injEq] at h
    subst h
    have hres : wsub8 (s1.mem.read addr) 1 < 256 := wrap8_lt _
    show ZNfrom _ (Mem.read _ addr)
    rw [Mem.read_write_same _ _ _ _ rfl, wrap8_eq_of_lt hres]
    exact ZNfrom_updateZN _ _
  have hdcp : ∀ (mode : AddressingMode) (s : CPUState) (addr : Nat)
      (s1 s' : CPUState),
      getAddress mode s = some (addr, s1) → dcp mode s = some s' →
      s'.mem.read addr = wsub8 (s1.mem.read addr) 1 ∧
      getFlag s'.status flagZero = (s1.reg_a == wsub8 (s1.mem.read addr) 1) ∧
      getFlag s'.status flagNegative =
        (wsub8 s1.reg_a (wsub8 (s1.mem.read addr) 1)).testBit 7 ∧
      getFlag s'.status flagCarry =
        decide (wsub8 (s1.mem.read addr) 1 ≤ s1.reg_a) := by
    intro m s addr s1 s' hga h
    simp only [dcp, hga, Option.some.injEq] at h
    subst h
    refine ⟨?_, ?_, ?_, ?_⟩
    · rw [Mem.read_write_same _ _ _ _ rfl]
      exact wrap8_eq_of_lt (wrap8_lt _)
    · rw [show flagZero = 2 ^ 1 from rfl, show flagNegative = 2 ^ 7 from rfl,
        getFlag_setFlag_other _ _ 7 1 (by omega) (by omega) (by omega),
        getFlag_setFlag_self _ _ 1 (by omega)]
    · rw [show flagNegative = 2 ^ 7 from rfl,
        getFlag_setFlag_self _ _ 7 (by omega)]
      exact and_pow_ne _ 7
    · rw [show flagCarry = 2 ^ 0 from rfl, show flagZero = 2 ^ 1 from rfl,
        show flagNegative = 2 ^ 7 from rfl,
        getFlag_setFlag_other _ _ 7 0 (by omega) (by omega) (by omega),
        getFlag_setFlag_other _ _ 1 0 (by omega) (by omega) (by omega),
        getFlag_setFlag_self _ _ 0 (by omega)]
  exact ⟨hlda, hldx, hldy, hlax, htax, htay, htsx, htxa, htya, hadc, hsbc,
    hand, heor, hora, hinx, hiny, hdex, hdey, hpla, hslo, hrla, hsre, hrra,
    hisc, halr, hanc, harr, haxs, haslacc, hlsracc, hrolacc, hroracc,
    haslmem, hlsrmem, hrolmem, hrormem, hincmem, hdecmem, hdcp⟩

/-- Witness for C7: the LDA conjunct at a concrete state. -/
theorem flags_zn_spec_witness : ZNfrom ldaOut.status ldaOut.reg_a :=
  flags_zn_spec.1 .Immediate cpu0 ldaOut rfl

end Nes
